import Mathlib

/-!
# mineflayer-autototem: detection and equip maintenance

A shallow embedding of `src/index.js`.  The closure variables of the plugin
(`isActive`, `lastErrorTime`, `errorCount`, `retryTimeout`, `lastHealth`,
`totemPopCooldown`) are fields of `World`, next to what the JavaScript runtime
keeps for the plugin: how often `equipTotemListener` is registered on
`physicsTick`, the invocations of `equipTotemListener` suspended at an `await`,
the pending `setTimeout` callbacks, the inventory the bot exposes and the value
`Date.now()` returns.  Every handler of the source is a function on `World`
returning the new world and the calls it made, in order.
-/

namespace AutoTotem

/-! ## Values -/

/-- A health scalar as read from `bot.health`: `none` is the JavaScript
`undefined` (the value before the first health packet), `some q` a finite
number.  The plugin only compares health values, so the rationals stand for
the doubles exactly; `NaN` and the infinities are left out. -/
abbrev Health := Option ℚ

/-- JavaScript `a <= b` on health values: false as soon as one side is
`undefined`. -/
def jsLe : Health → Health → Bool
  | some x, some y => decide (x ≤ y)
  | _, _ => false

/-- JavaScript `a > b` on health values: false as soon as one side is
`undefined`. -/
def jsGt : Health → Health → Bool
  | some x, some y => decide (y < x)
  | _, _ => false

/-- An inventory item: the two properties the plugin reads. -/
structure Item where
  type : Nat
  slot : Nat
deriving DecidableEq, Repr

/-- The inventory surface the plugin reads: `bot.inventory.slots`,
`bot.inventory.offhand` (absent in most inventory models) and the result of
`bot.inventory.items()`. -/
structure Inventory where
  slots : List (Option Item)
  offhand : Option (List (Option Item))
  items : List Item
deriving DecidableEq, Repr

/-- A value a collaborator promise rejects with, by what `.message` gives. -/
inductive JsErr where
  /-- A value whose `message` property is the given string. -/
  | error (message : String)
  /-- A value other than `undefined` and `null` without a `message`. -/
  | noMessage
  /-- The value `undefined` or `null`: reading a property of it throws. -/
  | nullish
deriving DecidableEq, Repr

/-- The `TypeError` the engine raises when a property of `undefined` is read. -/
def typeError : JsErr := JsErr.error "TypeError"

/-- The `await` at which an invocation of `equipTotemListener` is suspended. -/
inductive Stage where
  /-- Line 121: `await bot.equip(totem, 'offhand')`. -/
  | equip
  /-- Line 129: `await bot.clickWindow(totem.slot, 0, 0)`. -/
  | pickUp
  /-- Line 130: `await bot.clickWindow(45, 0, 0)`. -/
  | place
deriving DecidableEq, Repr

/-- A suspended invocation of `equipTotemListener`, with its local `totem`. -/
structure Pending where
  id : Nat
  totem : Item
  stage : Stage
deriving DecidableEq, Repr

/-- The two callbacks the plugin hands to `setTimeout`. -/
inductive TimerKind where
  /-- Line 158: `() => { retryTimeout = null }`. -/
  | clearRetry
  /-- Line 87: `equipTotemListener`. -/
  | deferredEquip
deriving DecidableEq, Repr

/-- A pending `setTimeout` callback: its handle, the clock value from which it
may fire, and the callback. -/
structure Timer where
  id : Nat
  due : Int
  kind : TimerKind
deriving DecidableEq, Repr

/-- What the plugin reads from its host once and for all: the totem type id,
`bot.entity.id`, and whether `bot.clickWindow` is defined. -/
structure Cfg where
  totemId : Nat
  entityId : Int
  hasClickWindow : Bool
deriving DecidableEq, Repr

/-- The plugin state together with the runtime and environment state it
depends on. -/
structure World where
  isActive : Bool
  lastErrorTime : Int
  errorCount : Nat
  retryTimeout : Option Nat
  lastHealth : Health
  totemPopCooldown : Int
  /-- Number of registrations of `equipTotemListener` on `physicsTick`. -/
  listeners : Nat
  /-- Invocations of `equipTotemListener` suspended at an `await`. -/
  pending : List Pending
  /-- Pending `setTimeout` callbacks. -/
  timers : List Timer
  /-- Next fresh handle, for timers and for suspended invocations. -/
  nextId : Nat
  /-- The inventory `bot.inventory`; `none` when reading it throws. -/
  inventory : Option Inventory
  /-- The value of `Date.now()`; the timers run on the same clock. -/
  now : Int
deriving DecidableEq, Repr

/-- A call made by the plugin, or a branch it took, in the order of
execution. -/
inductive Obs where
  /-- Line 36: `bot.emit('totem_pop')`. -/
  | totemPop
  /-- Line 121: `bot.equip(totem, 'offhand')`. -/
  | equip (totem : Item)
  /-- Lines 129 and 130: `bot.clickWindow(slot, mouseButton, mode)`. -/
  | clickWindow (slot mouseButton mode : Nat)
  /-- Line 144: the outer `catch` received `err`; `reported` tells whether the
  branch of line 152 was taken. -/
  | caught (err : JsErr) (reported : Bool)
deriving DecidableEq, Repr

/-- What can happen to the plugin. -/
inductive Ev where
  /-- The bot emits `physicsTick`. -/
  | tick
  /-- The bot sets `bot.health` to `h` and emits `health`. -/
  | health (h : Health)
  /-- The client `bot._client` emits `entity_status` with this packet; the
  listener of lines 74 to 80 is registered whenever there is a client. -/
  | status (entityId entityStatus : Int)
  /-- The bot emits `playerCollect` with this collector id. -/
  | collect (collectorId : Int)
  /-- The runtime tries to fire the timer with this handle. -/
  | timer (id : Nat)
  /-- The promise awaited by the suspended invocation `id` settles: `none`
  resolves it, `some e` rejects it with `e`. -/
  | settle (id : Nat) (r : Option JsErr)
  /-- The host calls `bot.autoTotem.stop()`. -/
  | stop
  /-- The host calls `bot.autoTotem.start()`. -/
  | start
  /-- The host calls `bot.autoTotem.unload()`. -/
  | unload
  /-- The inventory changes. -/
  | inventory (inv : Option Inventory)
  /-- The clock moves to `t`. -/
  | clock (t : Int)
deriving DecidableEq, Repr

/-! ## Constants -/

/-- Line 20. -/
def TOTEM_POP_COOLDOWN_TICKS : Int := 20

/-- Line 147. -/
def errorThrottleMs : Int := 10000

/-- Line 160: the delay of the backoff timer. -/
def retryDelayMs : Int := 5000

/-- Line 87: the delay of the deferred invocation after a pickup. -/
def collectDelayMs : Int := 50

/-- Whether the list `p` is an initial segment of `l`. -/
def startsWith : List Char → List Char → Bool
  | [], _ => true
  | _ :: _, [] => false
  | a :: p, b :: l => a == b && startsWith p l

/-- Whether `sub` occurs in `l` as a contiguous block. -/
def includesChars (sub : List Char) : List Char → Bool
  | [] => startsWith sub []
  | b :: l => startsWith sub (b :: l) || includesChars sub l

/-- JavaScript `s.includes(sub)`. -/
def includes (s sub : String) : Bool := includesChars sub.data s.data

/-! ## Activation detector (lines 33 to 81) -/

/-- Lines 34 to 40. -/
def emitTotemPop (w : World) : World × List Obs :=
  if w.totemPopCooldown ≤ 0 then
    ({ w with totemPopCooldown := TOTEM_POP_COOLDOWN_TICKS }, [Obs.totemPop])
  else (w, [])

/-- Lines 43 to 47: the first `physicsTick` listener. -/
def cooldownTick (w : World) : World :=
  if w.totemPopCooldown > 0 then
    { w with totemPopCooldown := w.totemPopCooldown - 1 }
  else w

/-- Lines 50 to 61. -/
def checkTotemActivation (oldHealth newHealth : Health) (w : World) :
    World × List Obs :=
  let wasNearDeath := jsLe oldHealth (some 4)
  let healthJumpedUp := jsGt newHealth oldHealth && jsGt newHealth (some 1)
  if wasNearDeath && healthJumpedUp then emitTotemPop w else (w, [])

/-- Lines 64 to 69: the `health` listener, `health` being `bot.health`. -/
def onHealth (health : Health) (w : World) : World × List Obs :=
  if health ≠ w.lastHealth then
    let r := checkTotemActivation w.lastHealth health w
    ({ r.1 with lastHealth := health }, r.2)
  else (w, [])

/-- Lines 74 to 80: the `entity_status` listener. -/
def onEntityStatus (c : Cfg) (entityId entityStatus : Int) (w : World) :
    World × List Obs :=
  if entityId = c.entityId ∧ entityStatus = 35 then emitTotemPop w else (w, [])

/-! ## Error-storm governor (lines 144 to 163) -/

/-- Lines 144 to 163: the outer `catch` of `equipTotemListener`. -/
def catchBranch (err : JsErr) (w : World) : World × List Obs :=
  let now := w.now
  let w1 := { w with errorCount := w.errorCount + 1 }
  if now - w1.lastErrorTime > errorThrottleMs then
    let w2 := { w1 with lastErrorTime := now }
    if w2.errorCount > 10 then
      ({ w2 with
          retryTimeout := some w2.nextId
          timers := w2.timers ++ [⟨w2.nextId, now + retryDelayMs, TimerKind.clearRetry⟩]
          nextId := w2.nextId + 1 },
        [Obs.caught err true])
    else (w2, [Obs.caught err true])
  else (w1, [Obs.caught err false])

/-! ## Equip maintainer (lines 92 to 143) -/

/-- Lines 101 to 108: the item in the offhand slot. -/
def offhandItem (inv : Inventory) : Option Item :=
  match (inv.slots.get? 45).join with
  | some item => some item
  | none =>
    match inv.offhand with
    | some l => l.head?.join
    | none => none

/-- Line 111: `offhandItem && offhandItem.type === totemId`. -/
def holdsTotem (c : Cfg) (inv : Inventory) : Bool :=
  match offhandItem inv with
  | some item => item.type == c.totemId
  | none => false

/-- Line 116: `bot.inventory.items().find(item => item.type === totemId)`. -/
def findTotem (c : Cfg) (inv : Inventory) : Option Item :=
  inv.items.find? (fun item => item.type == c.totemId)

/-- Lines 92 to 121: `equipTotemListener` from its call to its first `await`
(or to its end when it reaches none). -/
def equipTotemListener (c : Cfg) (w : World) : World × List Obs :=
  if !w.isActive then (w, [])
  else if w.retryTimeout.isSome then (w, [])
  else
    match w.inventory with
    | none => catchBranch typeError w
    | some inv =>
      if holdsTotem c inv then (w, [])
      else
        match findTotem c inv with
        | some totem =>
          ({ w with
              pending := w.pending ++ [⟨w.nextId, totem, Stage.equip⟩]
              nextId := w.nextId + 1 },
            [Obs.equip totem])
        | none => ({ w with errorCount := 0 }, [])

/-- Line 133: the error thrown when a click of the fallback rejects with
`altErr`. -/
def wrapAltErr : JsErr → JsErr
  | JsErr.error m => JsErr.error ("Failed alternative equip method: " ++ m)
  | JsErr.noMessage => JsErr.error ("Failed alternative equip method: " ++ "undefined")
  | JsErr.nullish => typeError

/-- Lines 121 to 142: `equipTotemListener` from the `await` at which the
invocation `p` is suspended, once the awaited promise settles with `r`, to its
next `await` or to its end.  `w` no longer lists `p` as suspended. -/
def resume (c : Cfg) (p : Pending) (r : Option JsErr) (w : World) :
    World × List Obs :=
  match p.stage, r with
  | Stage.equip, none => ({ w with errorCount := 0 }, [])
  | Stage.equip, some (JsErr.error m) =>
    if includes m "invalid destination: offhand" then
      if c.hasClickWindow then
        ({ w with pending := w.pending ++ [{ p with stage := Stage.pickUp }] },
          [Obs.clickWindow p.totem.slot 0 0])
      else ({ w with errorCount := 0 }, [])
    else catchBranch (JsErr.error m) w
  | Stage.equip, some _ => catchBranch typeError w
  | Stage.pickUp, none =>
    ({ w with pending := w.pending ++ [{ p with stage := Stage.place }] },
      [Obs.clickWindow 45 0 0])
  | Stage.pickUp, some altErr => catchBranch (wrapAltErr altErr) w
  | Stage.place, none => ({ w with errorCount := 0 }, [])
  | Stage.place, some altErr => catchBranch (wrapAltErr altErr) w

/-! ## Lifecycle controller (lines 168 to 200) -/

/-- The call `clearTimeout(id)`. -/
def clearTimeout (id : Nat) (w : World) : World :=
  { w with timers := w.timers.filter (fun t => t.id != id) }

/-- Lines 175 to 183. -/
def stop (w : World) : World :=
  if !w.isActive then w
  else
    let w1 := { w with isActive := false }
    let w2 :=
      match w1.retryTimeout with
      | some id => { clearTimeout id w1 with retryTimeout := none }
      | none => w1
    { w2 with listeners := w2.listeners - 1 }

/-- Lines 186 to 195. -/
def start (w : World) : World :=
  if w.isActive then w
  else
    let w1 := { w with isActive := true, errorCount := 0 }
    let w2 :=
      match w1.retryTimeout with
      | some id => { clearTimeout id w1 with retryTimeout := none }
      | none => w1
    { w2 with listeners := w2.listeners + 1 }

/-- Lines 198 to 200. -/
def unload (w : World) : World := stop w

/-! ## The event loop -/

/-- The calls of `equipTotemListener` one `physicsTick` makes: one for each
registration. -/
def invokeTimes (c : Cfg) : Nat → World → World × List Obs
  | 0, w => (w, [])
  | n + 1, w =>
    let r := equipTotemListener c w
    let r2 := invokeTimes c n r.1
    (r2.1, r.2 ++ r2.2)

/-- Lines 84 to 89: the `playerCollect` listener. -/
def onPlayerCollect (c : Cfg) (collectorId : Int) (w : World) : World :=
  if collectorId = c.entityId then
    { w with
        timers := w.timers ++ [⟨w.nextId, w.now + collectDelayMs, TimerKind.deferredEquip⟩]
        nextId := w.nextId + 1 }
  else w

/-- The runtime fires the timer `id` when it is pending and due. -/
def fireTimer (c : Cfg) (id : Nat) (w : World) : World × List Obs :=
  match w.timers.find? (fun t => t.id == id) with
  | none => (w, [])
  | some t =>
    if t.due ≤ w.now then
      let w1 := clearTimeout id w
      match t.kind with
      | TimerKind.clearRetry => ({ w1 with retryTimeout := none }, [])
      | TimerKind.deferredEquip => equipTotemListener c w1
    else (w, [])

/-- The promise awaited by the suspended invocation `id` settles. -/
def settle (c : Cfg) (id : Nat) (r : Option JsErr) (w : World) :
    World × List Obs :=
  match w.pending.find? (fun p => p.id == id) with
  | none => (w, [])
  | some p =>
    resume c p r { w with pending := w.pending.filter (fun q => q.id != id) }

/-- One event: the new world and the calls made, in order. -/
def step (c : Cfg) (w : World) : Ev → World × List Obs
  | Ev.tick => invokeTimes c w.listeners (cooldownTick w)
  | Ev.health h => onHealth h w
  | Ev.status entityId entityStatus => onEntityStatus c entityId entityStatus w
  | Ev.collect collectorId => (onPlayerCollect c collectorId w, [])
  | Ev.timer id => fireTimer c id w
  | Ev.settle id r => settle c id r w
  | Ev.stop => (stop w, [])
  | Ev.start => (start w, [])
  | Ev.unload => (unload w, [])
  | Ev.inventory inv => ({ w with inventory := inv }, [])
  | Ev.clock t => ({ w with now := t }, [])

/-- The world after a sequence of events. -/
def run (c : Cfg) : World → List Ev → World
  | w, [] => w
  | w, e :: es => run c (step c w e).1 es

/-- The calls made along a sequence of events, in order. -/
def trace (c : Cfg) : World → List Ev → List Obs
  | _, [] => []
  | w, e :: es => (step c w e).2 ++ trace c (step c w e).1 es

/-- Lines 12 to 19 and 168: the world right after the plugin is loaded. -/
def init (health : Health) (inv : Option Inventory) (now : Int) : World :=
  { isActive := true
    lastErrorTime := 0
    errorCount := 0
    retryTimeout := none
    lastHealth := health
    totemPopCooldown := 0
    listeners := 1
    pending := []
    timers := []
    nextId := 0
    inventory := inv
    now := now }

/-- The worlds the plugin can be in: those a sequence of events leads to from
a freshly loaded plugin. -/
def Reachable (c : Cfg) (w : World) : Prop :=
  ∃ health inv now es, w = run c (init health inv now) es

/-! ## Notions used in the statements -/

/-- The number of `physicsTick` events in a sequence of events. -/
def ticks (es : List Ev) : Nat := es.count Ev.tick

/-- An event is a qualifying signal in `w` when its handler calls
`emitTotemPop`: a health notification matching the near-death pattern against
the recorded health, or a status packet for the bot with code 35. -/
def qualifies (c : Cfg) (w : World) : Ev → Prop
  | Ev.health h =>
    jsLe w.lastHealth (some 4) = true ∧ jsGt h w.lastHealth = true ∧ jsGt h (some 1) = true
  | Ev.status entityId entityStatus => entityId = c.entityId ∧ entityStatus = 35
  | _ => False

/-- The health on record after a sequence of events, `h0` being on record
before it: the value of the last health notification. -/
def lastNotified (h0 : Health) : List Ev → Health
  | [] => h0
  | Ev.health h :: es => lastNotified h es
  | _ :: es => lastNotified h0 es

/-- The health notifications with the given values, in order. -/
def healthEvents (hs : List Health) : List Ev := hs.map Ev.health

/-- Whether a call is a transfer action: `bot.equip` or `bot.clickWindow`. -/
def isTransfer : Obs → Bool
  | Obs.equip _ => true
  | Obs.clickWindow _ _ _ => true
  | _ => false

/-- The number of transfer actions in flight: every suspended invocation of
`equipTotemListener` awaits exactly one. -/
def inFlight (w : World) : Nat := w.pending.length

/-- A configuration for examples: totem type id 7, bot entity id 1, with
`bot.clickWindow`. -/
def exampleCfg : Cfg := ⟨7, 1, true⟩

/-- An inventory for examples: nothing in the offhand slot, a totem in
slot 10. -/
def exampleInv : Inventory := ⟨[], none, [⟨7, 10⟩]⟩

/-- An inventory for examples: the totem sits in slot 45, the offhand slot. -/
def exampleInvHolding : Inventory := ⟨List.replicate 45 none ++ [some ⟨7, 45⟩], none, []⟩

/-- A freshly loaded plugin for examples, the clock at 1000000. -/
def exampleWorld : World := init none (some exampleInv) 1000000

/-- The events of `n` maintenance passes in a row, each started by a tick and
failed by the rejection of its `bot.equip` with the message `boom`; `k` is
the handle of the first invocation. -/
def failedPasses : Nat → Nat → List Ev
  | 0, _ => []
  | n + 1, k => Ev.tick :: Ev.settle k (some (JsErr.error "boom")) :: failedPasses n (k + 1)

/-- Whether an observation is a failure that took the reporting branch (the
one that records `lastErrorTime`). -/
def isReport : Obs → Bool
  | Obs.caught _ true => true
  | _ => false

/-- The reported failures among the calls `os`, each as the clock value `now`
at which it was handled. -/
def reportsAt (now : Int) (os : List Obs) : List Int :=
  (os.filter isReport).map (fun _ => now)

/-- The clock values at which failures were reported along a sequence of
events, in order. -/
def reportTimes (c : Cfg) : World → List Ev → List Int
  | _, [] => []
  | w, e :: es => reportsAt w.now (step c w e).2 ++ reportTimes c (step c w e).1 es

/-- The report times `ts`, made while `lastErrorTime` went from `l` to `l2`,
respect the throttle: each is more than 10000 after `l` and after every
earlier one, and none is beyond `l2`. -/
def Throttled (l : Int) (ts : List Int) (l2 : Int) : Prop :=
  (∀ t ∈ ts, t - l > errorThrottleMs) ∧
    ts.Pairwise (fun a b => b - a > errorThrottleMs) ∧ (∀ t ∈ ts, t ≤ l2) ∧ l ≤ l2

/-- The listener is registered on `physicsTick` once when the system is
active and not at all when it is inactive. -/
def Attached (w : World) : Prop := w.listeners = if w.isActive then 1 else 0

/-- Whether an event lets a backoff window opened at clock value `t0` stand:
it is not a call of `start()`, and it keeps the clock within the 5000 ms
from `t0`. -/
def withinBackoff (t0 : Int) : Ev → Bool
  | Ev.start => false
  | Ev.clock t => decide (t0 ≤ t ∧ t < t0 + retryDelayMs)
  | _ => true

/-- The state of affairs during a backoff window opened at clock value `t0`:
the guards of `equipTotemListener` are closed, the clock is within 5000 ms
from `t0`, and no backoff timer is due before the end of the window. -/
def Backoff (t0 : Int) (w : World) : Prop :=
  (w.isActive = false ∨ w.retryTimeout.isSome = true) ∧
    (t0 ≤ w.now ∧ w.now < t0 + retryDelayMs) ∧
    ∀ t ∈ w.timers, t.kind = TimerKind.clearRetry → t0 + retryDelayMs ≤ t.due

/-- Whether an observation is a failure received by the outer `catch`. -/
def isFailure : Obs → Bool
  | Obs.caught _ _ => true
  | _ => false

/-! ## The maintainer as a `try` block with its `catch` -/

/-- Lines 99 to 121: the `try` block of `equipTotemListener` from its start
to the first `await` (or to its `return` or end when it reaches none);
`Except.error err` when it throws `err`. -/
def tryStart (c : Cfg) (w : World) : Except JsErr (World × List Obs) :=
  match w.inventory with
  | none => Except.error typeError
  | some inv =>
    if holdsTotem c inv then Except.ok (w, [])
    else
      match findTotem c inv with
      | some totem =>
        Except.ok
          ({ w with
              pending := w.pending ++ [⟨w.nextId, totem, Stage.equip⟩]
              nextId := w.nextId + 1 },
            [Obs.equip totem])
      | none => Except.ok ({ w with errorCount := 0 }, [])

/-- Lines 121 to 142: the `try` block of `equipTotemListener` from the
`await` at which the invocation `p` is suspended, the awaited promise having
settled with `r`, to its next `await` or to its end; `Except.error err` when
it throws `err` out of the inner `try` statements. -/
def tryResume (c : Cfg) (p : Pending) (r : Option JsErr) (w : World) :
    Except JsErr (World × List Obs) :=
  match p.stage, r with
  | Stage.equip, none => Except.ok ({ w with errorCount := 0 }, [])
  | Stage.equip, some (JsErr.error m) =>
    if includes m "invalid destination: offhand" then
      if c.hasClickWindow then
        Except.ok
          ({ w with pending := w.pending ++ [{ p with stage := Stage.pickUp }] },
            [Obs.clickWindow p.totem.slot 0 0])
      else Except.ok ({ w with errorCount := 0 }, [])
    else Except.error (JsErr.error m)
  | Stage.equip, some _ => Except.error typeError
  | Stage.pickUp, none =>
    Except.ok
      ({ w with pending := w.pending ++ [{ p with stage := Stage.place }] },
        [Obs.clickWindow 45 0 0])
  | Stage.pickUp, some altErr => Except.error (wrapAltErr altErr)
  | Stage.place, none => Except.ok ({ w with errorCount := 0 }, [])
  | Stage.place, some altErr => Except.error (wrapAltErr altErr)

/-- Lines 98 and 144: `try body catch (err) handler`, the handler being
`catchBranch`, which has no statement that throws. -/
def tryCatch (body : Except JsErr (World × List Obs)) (w : World) :
    Except JsErr (World × List Obs) :=
  match body with
  | Except.ok r => Except.ok r
  | Except.error err => Except.ok (catchBranch err w)

/-- Lines 92 to 164: how a call of `equipTotemListener` ends at its first
`await`, `return` or end: `Except.error err` would be a throw to the
caller. -/
def listenerOutcome (c : Cfg) (w : World) : Except JsErr (World × List Obs) :=
  if !w.isActive then Except.ok (w, [])
  else if w.retryTimeout.isSome then Except.ok (w, [])
  else tryCatch (tryStart c w) w

/-- Lines 121 to 164: how a suspended invocation goes on when its promise
settles: `Except.error err` would reject the promise `equipTotemListener`
returned. -/
def resumeOutcome (c : Cfg) (p : Pending) (r : Option JsErr) (w : World) :
    Except JsErr (World × List Obs) :=
  tryCatch (tryResume c p r w) w

/-- The fields of the failure tracker apart, and the timer the tracker arms,
the two worlds are the same. -/
def sameButTracker (w v : World) : Prop :=
  v.isActive = w.isActive ∧ v.lastHealth = w.lastHealth ∧
    v.totemPopCooldown = w.totemPopCooldown ∧ v.listeners = w.listeners ∧
    v.pending = w.pending ∧ v.inventory = w.inventory ∧ v.now = w.now

/-! ## Capability gate (lines 3 to 31) -/

/-- The characters JavaScript `parseInt` skips at the start of its argument
(white space and line terminators), by code point. -/
def isStrWhiteSpace (ch : Char) : Bool :=
  [9, 10, 11, 12, 13, 32, 160, 5760, 8192, 8193, 8194, 8195, 8196, 8197, 8198, 8199,
    8200, 8201, 8202, 8232, 8233, 8239, 8287, 12288, 65279].contains ch.toNat

/-- The value of a decimal digit. -/
def digitValue (ch : Char) : Option Nat :=
  if 48 ≤ ch.toNat ∧ ch.toNat ≤ 57 then some (ch.toNat - 48) else none

/-- The value of the longest run of decimal digits at the start of the
list, `acc` being the value of the digits read so far. -/
def readDigits (acc : Nat) : List Char → Nat
  | [] => acc
  | ch :: s =>
    match digitValue ch with
    | some d => readDigits (10 * acc + d) s
    | none => acc

/-- JavaScript `parseInt(s, 10)`: leading white space is skipped, a sign is
read, then the longest run of decimal digits; `none` is `NaN`. -/
def parseInt10 (s : List Char) : Option Int :=
  let trimmed := s.dropWhile isStrWhiteSpace
  let signed : Int × List Char :=
    match trimmed with
    | '-' :: rest => (-1, rest)
    | '+' :: rest => (1, rest)
    | _ => (1, trimmed)
  match signed.2 with
  | [] => none
  | ch :: _ =>
    if (digitValue ch).isSome then some (signed.1 * (readDigits 0 signed.2 : Int)) else none

/-- JavaScript `s.split('.')`. -/
def splitDots : List Char → List (List Char)
  | [] => [[]]
  | ch :: s =>
    if ch = '.' then [] :: splitDots s
    else
      match splitDots s with
      | [] => [[ch]]
      | x :: xs => (ch :: x) :: xs

/-- Lines 24 and 25: `parseInt(mcVersion[i], 10) || 0`; a missing element is
`undefined`, which `parseInt` reads as the string `undefined`. -/
def versionComponent (mcVersion : List (List Char)) (i : Nat) : Int :=
  match parseInt10 ((mcVersion.get? i).getD "undefined".data) with
  | some n => n
  | none => 0

/-- Lines 23 to 26. -/
def hasOffhand (version : String) : Bool :=
  let mcVersion := splitDots version.data
  let majorVersion := versionComponent mcVersion 0
  let minorVersion := versionComponent mcVersion 1
  decide (majorVersion > 1) || (decide (majorVersion = 1) && decide (minorVersion ≥ 9))

/-- What the plugin can leave on its host: the events of `bot` and of
`bot._client` on which it registered a listener, in order, and whether
`bot.autoTotem` is defined. -/
structure Host where
  botListeners : List String
  clientListeners : List String
  autoTotem : Bool
deriving DecidableEq, Repr

/-- What `require('minecraft-data')(bot.version)` hands to the plugin, as far
as the plugin reads it: `totemId` is `itemsByName.totem_of_undying?.id`,
`none` standing for `undefined`. -/
structure GameData where
  totemId : Option Nat
deriving DecidableEq, Repr

/-- Lines 1 to 200: the plugin function.  `minecraftData` is the library
`require('minecraft-data')`, which gives the game data of a version and
`none` (`null`) for a version it has no data for; `version` is
`bot.version`, `hasClient` tells whether `bot._client` exists.  The result
is `Except.error err` when the plugin throws `err`, and otherwise the host
as the plugin leaves it and, when the plugin goes past the gate, its initial
world. -/
def plugin (minecraftData : String → Option GameData) (version : String)
    (hasClient : Bool) (health : Health) (inv : Option Inventory) (now : Int)
    (h : Host) : Except JsErr (Host × Option World) :=
  match minecraftData version with
  | none => Except.error typeError
  | some mcData =>
    let totemId := mcData.totemId
    if totemId = none ∨ totemId = some 0 then Except.ok (h, none)
    else if !hasOffhand version then Except.ok (h, none)
    else
      Except.ok
        ({ botListeners :=
              h.botListeners ++ ["physicsTick", "health", "playerCollect", "physicsTick"]
           clientListeners :=
              if hasClient then h.clientListeners ++ ["entity_status"]
              else h.clientListeners
           autoTotem := true },
          some (init health inv now))

/-- A game data library for examples: it knows version 1.16.5, where the
totem has id 7, and version 1.8.9, which has no totem, and nothing else. -/
def exampleData (version : String) : Option GameData :=
  if version = "1.16.5" then some ⟨some 7⟩
  else if version = "1.8.9" then some ⟨none⟩
  else none

/-- As the specification words it: the `i`-th dot-separated component of the
version string parsed as a base-10 integer, an unparsable or missing
component counting as 0. -/
def specComponent (version : String) (i : Nat) : Int :=
  match (splitDots version.data).get? i with
  | none => 0
  | some s =>
    match parseInt10 s with
    | some n => n
    | none => 0

/-- As the specification words it: `major > 1 OR (major == 1 AND minor >= 9)`. -/
def specOffhand (version : String) : Bool :=
  decide (specComponent version 0 > 1 ∨
    (specComponent version 0 = 1 ∧ specComponent version 1 ≥ 9))

/-! ## Further notions used in the statements -/

/-- Whether an event is a call of the lifecycle controller. -/
def isLifecycle : Ev → Bool
  | Ev.stop => true
  | Ev.start => true
  | Ev.unload => true
  | _ => false

/-- For every event of the sequence that is not a lifecycle call, in order,
the event and whether handling it emitted `totem_pop`. -/
def emissions (c : Cfg) : World → List Ev → List (Ev × Bool)
  | _, [] => []
  | w, e :: es =>
    if isLifecycle e then emissions c (step c w e).1 es
    else (e, decide (Obs.totemPop ∈ (step c w e).2)) :: emissions c (step c w e).1 es

/-- Whether an event keeps the failure tracker idle when `bot.clickWindow`
is missing: a settling promise resolves, or rejects with a message that
contains `invalid destination: offhand`, and the inventory stays
readable. -/
def offhandOnly : Ev → Bool
  | Ev.settle _ none => true
  | Ev.settle _ (some (JsErr.error m)) => includes m "invalid destination: offhand"
  | Ev.settle _ (some _) => false
  | Ev.inventory none => false
  | _ => true

/-- The state of affairs while nothing has failed and `bot.clickWindow` is
missing: count 0, no backoff timer, a readable inventory, and every
suspended invocation at its `bot.equip`. -/
def Idle (w : World) : Prop :=
  w.errorCount = 0 ∧ w.retryTimeout = none ∧ w.inventory ≠ none ∧
    ∀ p ∈ w.pending, p.stage = Stage.equip

/-! # Theorems -/

/-! ## Runs -/

theorem run_append (c : Cfg) (w : World) (es fs : List Ev) :
    run c w (es ++ fs) = run c (run c w es) fs := by
  induction es generalizing w with
  | nil => rfl
  | cons e es ih => simp [run, ih]

theorem trace_append (c : Cfg) (w : World) (es fs : List Ev) :
    trace c w (es ++ fs) = trace c w es ++ trace c (run c w es) fs := by
  induction es generalizing w with
  | nil => rfl
  | cons e es ih => simp [run, trace, ih]

theorem onHealth_lastHealth (h : Health) (w : World) :
    (onHealth h w).1.lastHealth = h := by
  unfold onHealth
  split
  · rfl
  · rename_i hne
    simp only [ne_eq, not_not] at hne
    exact hne.symm

theorem jsGt_irrefl (h : Health) : jsGt h h = false := by
  cases h <;> simp [jsGt]

theorem onHealth_totemPop_iff (h : Health) (w : World) :
    Obs.totemPop ∈ (onHealth h w).2 ↔
      w.totemPopCooldown ≤ 0 ∧ jsLe w.lastHealth (some 4) = true ∧
        jsGt h w.lastHealth = true ∧ jsGt h (some 1) = true := by
  unfold onHealth checkTotemActivation emitTotemPop
  by_cases hne : h = w.lastHealth
  · subst hne
    simp [jsGt_irrefl]
  · by_cases h1 : jsLe w.lastHealth (some 4) = true <;>
    by_cases h2 : jsGt h w.lastHealth = true <;>
    by_cases h3 : jsGt h (some 1) = true <;>
    by_cases h4 : w.totemPopCooldown ≤ 0 <;> simp [hne, h1, h2, h3, h4]

/-! ### Frame: the maintainer never touches the detector -/

theorem catchBranch_frame (err : JsErr) (w : World) :
    (catchBranch err w).1.totemPopCooldown = w.totemPopCooldown ∧
      (catchBranch err w).1.lastHealth = w.lastHealth ∧
      Obs.totemPop ∉ (catchBranch err w).2 := by
  simp only [catchBranch]
  split_ifs <;> simp

theorem equipTotemListener_frame (c : Cfg) (w : World) :
    (equipTotemListener c w).1.totemPopCooldown = w.totemPopCooldown ∧
      (equipTotemListener c w).1.lastHealth = w.lastHealth ∧
      Obs.totemPop ∉ (equipTotemListener c w).2 := by
  unfold equipTotemListener
  split_ifs
  · simp
  · simp
  · split
    · exact catchBranch_frame _ _
    · split_ifs
      · simp
      · split <;> simp

theorem invokeTimes_frame (c : Cfg) (n : Nat) (w : World) :
    (invokeTimes c n w).1.totemPopCooldown = w.totemPopCooldown ∧
      (invokeTimes c n w).1.lastHealth = w.lastHealth ∧
      Obs.totemPop ∉ (invokeTimes c n w).2 := by
  induction n generalizing w with
  | zero => simp [invokeTimes]
  | succ n ih =>
    obtain ⟨h1, h2, h3⟩ := equipTotemListener_frame c w
    obtain ⟨k1, k2, k3⟩ := ih (equipTotemListener c w).1
    simp only [invokeTimes]
    refine ⟨by rw [k1, h1], by rw [k2, h2], ?_⟩
    simp [h3, k3]

theorem resume_frame (c : Cfg) (p : Pending) (r : Option JsErr) (w : World) :
    (resume c p r w).1.totemPopCooldown = w.totemPopCooldown ∧
      (resume c p r w).1.lastHealth = w.lastHealth ∧
      Obs.totemPop ∉ (resume c p r w).2 := by
  unfold resume
  split
  any_goals exact catchBranch_frame _ _
  any_goals simp
  split_ifs
  · simp
  · simp
  · exact catchBranch_frame _ _

theorem settle_frame (c : Cfg) (id : Nat) (r : Option JsErr) (w : World) :
    (settle c id r w).1.totemPopCooldown = w.totemPopCooldown ∧
      (settle c id r w).1.lastHealth = w.lastHealth ∧
      Obs.totemPop ∉ (settle c id r w).2 := by
  unfold settle
  split
  · simp
  · exact resume_frame _ _ _ _

theorem fireTimer_frame (c : Cfg) (id : Nat) (w : World) :
    (fireTimer c id w).1.totemPopCooldown = w.totemPopCooldown ∧
      (fireTimer c id w).1.lastHealth = w.lastHealth ∧
      Obs.totemPop ∉ (fireTimer c id w).2 := by
  unfold fireTimer
  split
  · simp
  · split_ifs
    · split
      · simp [clearTimeout]
      · exact equipTotemListener_frame c (clearTimeout id w)
    · simp

theorem stop_frame (w : World) :
    (stop w).totemPopCooldown = w.totemPopCooldown ∧ (stop w).lastHealth = w.lastHealth := by
  simp only [stop]
  split_ifs
  · simp
  · split <;> simp [clearTimeout]

theorem start_frame (w : World) :
    (start w).totemPopCooldown = w.totemPopCooldown ∧ (start w).lastHealth = w.lastHealth := by
  simp only [start]
  split_ifs
  · simp
  · split <;> simp [clearTimeout]

theorem emitTotemPop_iff (w : World) :
    Obs.totemPop ∈ (emitTotemPop w).2 ↔ w.totemPopCooldown ≤ 0 := by
  unfold emitTotemPop
  split_ifs with h <;> simp [h]

theorem onEntityStatus_totemPop_iff (c : Cfg) (entityId entityStatus : Int) (w : World) :
    Obs.totemPop ∈ (onEntityStatus c entityId entityStatus w).2 ↔
      entityId = c.entityId ∧ entityStatus = 35 ∧ w.totemPopCooldown ≤ 0 := by
  unfold onEntityStatus emitTotemPop
  by_cases h1 : entityId = c.entityId <;> by_cases h2 : entityStatus = 35 <;>
    by_cases h3 : w.totemPopCooldown ≤ 0 <;> simp [h1, h2, h3]

theorem onHealth_cooldown (h : Health) (w : World) :
    (onHealth h w).1.totemPopCooldown =
      if Obs.totemPop ∈ (onHealth h w).2 then 20 else w.totemPopCooldown := by
  unfold onHealth checkTotemActivation emitTotemPop
  by_cases hne : h = w.lastHealth
  · simp [hne]
  · by_cases h1 : jsLe w.lastHealth (some 4) = true <;>
    by_cases h2 : jsGt h w.lastHealth = true <;>
    by_cases h3 : jsGt h (some 1) = true <;>
    by_cases h4 : w.totemPopCooldown ≤ 0 <;>
      simp [hne, h1, h2, h3, h4, TOTEM_POP_COOLDOWN_TICKS]

theorem onEntityStatus_cooldown (c : Cfg) (entityId entityStatus : Int) (w : World) :
    (onEntityStatus c entityId entityStatus w).1.totemPopCooldown =
      if Obs.totemPop ∈ (onEntityStatus c entityId entityStatus w).2 then 20
      else w.totemPopCooldown := by
  unfold onEntityStatus emitTotemPop
  by_cases h1 : entityId = c.entityId <;> by_cases h2 : entityStatus = 35 <;>
    by_cases h3 : w.totemPopCooldown ≤ 0 <;>
      simp [h1, h2, h3, TOTEM_POP_COOLDOWN_TICKS]

/-- The cooldown counter after one event. -/
theorem step_cooldown (c : Cfg) (w : World) (e : Ev) :
    (step c w e).1.totemPopCooldown =
      if Obs.totemPop ∈ (step c w e).2 then 20
      else if e = Ev.tick then (cooldownTick w).totemPopCooldown
      else w.totemPopCooldown := by
  cases e with
  | tick =>
    obtain ⟨h1, _, h3⟩ := invokeTimes_frame c w.listeners (cooldownTick w)
    simp [step, h1, h3]
  | health h => simpa [step] using onHealth_cooldown h w
  | status a b => simpa [step] using onEntityStatus_cooldown c a b w
  | collect a => by_cases h : a = c.entityId <;> simp [step, onPlayerCollect, h]
  | timer id =>
    obtain ⟨h1, _, h3⟩ := fireTimer_frame c id w
    simp [step, h1, h3]
  | settle id r =>
    obtain ⟨h1, _, h3⟩ := settle_frame c id r w
    simp [step, h1, h3]
  | stop => simp [step, (stop_frame w).1]
  | start => simp [step, (start_frame w).1]
  | unload => simp [step, unload, (stop_frame w).1]
  | inventory inv => simp [step]
  | clock t => simp [step]

/-- An event emits only on an open gate. -/
theorem step_totemPop_open (c : Cfg) (w : World) (e : Ev)
    (h : Obs.totemPop ∈ (step c w e).2) : w.totemPopCooldown ≤ 0 := by
  cases e with
  | tick => exact absurd h (invokeTimes_frame c w.listeners (cooldownTick w)).2.2
  | health x => exact ((onHealth_totemPop_iff x w).1 h).1
  | status a b => exact ((onEntityStatus_totemPop_iff c a b w).1 h).2.2
  | collect a => simp [step] at h
  | timer id => exact absurd h (fireTimer_frame c id w).2.2
  | settle id r => exact absurd h (settle_frame c id r w).2.2
  | stop => simp [step] at h
  | start => simp [step] at h
  | unload => simp [step] at h
  | inventory inv => simp [step] at h
  | clock t => simp [step] at h

/-- A qualifying signal is emitted exactly on an open gate. -/
theorem step_qualifies (c : Cfg) (w : World) (q : Ev) (hq : qualifies c w q) :
    Obs.totemPop ∈ (step c w q).2 ↔ w.totemPopCooldown ≤ 0 := by
  cases q with
  | health x =>
    obtain ⟨h1, h2, h3⟩ := hq
    simp only [step, onHealth_totemPop_iff, h1, h2, h3, and_true]
  | status a b =>
    obtain ⟨h1, h2⟩ := hq
    simp only [step, onEntityStatus_totemPop_iff, h1, h2, true_and]
  | _ => exact absurd hq (by simp [qualifies])

theorem cooldownTick_lastHealth (w : World) :
    (cooldownTick w).lastHealth = w.lastHealth := by
  unfold cooldownTick
  split_ifs <;> rfl

theorem cooldownTick_cooldown (w : World) :
    (cooldownTick w).totemPopCooldown =
      if w.totemPopCooldown > 0 then w.totemPopCooldown - 1 else w.totemPopCooldown := by
  unfold cooldownTick
  split_ifs <;> rfl

/-- Ticks lower the counter by at most one each, whatever else happens. -/
theorem run_cooldown_ge (c : Cfg) (w : World) (es : List Ev) :
    w.totemPopCooldown - (ticks es : Int) ≤ (run c w es).totemPopCooldown := by
  induction es generalizing w with
  | nil => simp [run, ticks]
  | cons e es ih =>
    have h1 := ih (step c w e).1
    have h2 := step_cooldown c w e
    have h3 := cooldownTick_cooldown w
    simp only [run]
    by_cases he : e = Ev.tick
    · subst he
      have : ticks (Ev.tick :: es) = ticks es + 1 := by simp [ticks]
      rw [this]
      by_cases hp : Obs.totemPop ∈ (step c w Ev.tick).2
      · have := step_totemPop_open c w _ hp
        simp only [hp, if_true] at h2
        push_cast
        omega
      · simp only [hp, if_false, if_true] at h2
        push_cast
        split_ifs at h3 <;> omega
    · have : ticks (e :: es) = ticks es := by
        simp [ticks, List.count_cons, Ne.symm he]
      rw [this]
      by_cases hp : Obs.totemPop ∈ (step c w e).2
      · have := step_totemPop_open c w _ hp
        simp only [hp, if_true] at h2
        omega
      · simp only [hp, if_false, he] at h2
        omega

/-- Without an emission the counter only counts ticks down, to zero. -/
theorem run_cooldown_quiet (c : Cfg) (w : World) (es : List Ev)
    (h0 : 0 ≤ w.totemPopCooldown) (hq : Obs.totemPop ∉ trace c w es) :
    (run c w es).totemPopCooldown = max (w.totemPopCooldown - (ticks es : Int)) 0 := by
  induction es generalizing w with
  | nil => simp [run, ticks, h0]
  | cons e es ih =>
    simp only [trace, List.mem_append, not_or] at hq
    have h2 := step_cooldown c w e
    have h3 := cooldownTick_cooldown w
    simp only [hq.1, if_false] at h2
    simp only [run]
    by_cases he : e = Ev.tick
    · subst he
      simp only [if_true] at h2
      have ht : ticks (Ev.tick :: es) = ticks es + 1 := by simp [ticks]
      have h0' : 0 ≤ (step c w Ev.tick).1.totemPopCooldown := by
        split_ifs at h3 <;> omega
      rw [ih _ h0' hq.2, ht]
      push_cast
      split_ifs at h3 <;> omega
    · simp only [he, if_false] at h2
      have ht : ticks (e :: es) = ticks es := by
        simp [ticks, List.count_cons, Ne.symm he]
      rw [ih _ (by omega) hq.2, ht, h2]

theorem onHealth_obs (h : Health) (w : World) :
    (onHealth h w).2 =
      if w.totemPopCooldown ≤ 0 ∧ jsLe w.lastHealth (some 4) = true ∧
          jsGt h w.lastHealth = true ∧ jsGt h (some 1) = true
      then [Obs.totemPop] else [] := by
  unfold onHealth checkTotemActivation emitTotemPop
  by_cases hne : h = w.lastHealth
  · subst hne
    simp [jsGt_irrefl]
  · by_cases h1 : jsLe w.lastHealth (some 4) = true <;>
    by_cases h2 : jsGt h w.lastHealth = true <;>
    by_cases h3 : jsGt h (some 1) = true <;>
    by_cases h4 : w.totemPopCooldown ≤ 0 <;> simp [hne, h1, h2, h3, h4]

theorem onEntityStatus_obs (c : Cfg) (entityId entityStatus : Int) (w : World) :
    (onEntityStatus c entityId entityStatus w).2 =
      if entityId = c.entityId ∧ entityStatus = 35 ∧ w.totemPopCooldown ≤ 0
      then [Obs.totemPop] else [] := by
  unfold onEntityStatus emitTotemPop
  by_cases h1 : entityId = c.entityId <;> by_cases h2 : entityStatus = 35 <;>
    by_cases h3 : w.totemPopCooldown ≤ 0 <;> simp [h1, h2, h3]

theorem step_lastHealth (c : Cfg) (w : World) (e : Ev) :
    (step c w e).1.lastHealth = lastNotified w.lastHealth [e] := by
  cases e with
  | tick =>
    simpa [step, lastNotified, cooldownTick_lastHealth] using
      (invokeTimes_frame c w.listeners (cooldownTick w)).2.1
  | health h => simpa [step, lastNotified] using onHealth_lastHealth h w
  | status a b =>
    simp only [step, lastNotified, onEntityStatus, emitTotemPop]
    split_ifs <;> rfl
  | collect a => by_cases h : a = c.entityId <;> simp [step, onPlayerCollect, h, lastNotified]
  | timer id => simpa [step, lastNotified] using (fireTimer_frame c id w).2.1
  | settle id r => simpa [step, lastNotified] using (settle_frame c id r w).2.1
  | stop => simp [step, (stop_frame w).2, lastNotified]
  | start => simp [step, (start_frame w).2, lastNotified]
  | unload => simp [step, unload, (stop_frame w).2, lastNotified]
  | inventory inv => simp [step, lastNotified]
  | clock t => simp [step, lastNotified]

/-- The health on record is the value of the last health notification. -/
theorem run_lastHealth (c : Cfg) (w : World) (es : List Ev) :
    (run c w es).lastHealth = lastNotified w.lastHealth es := by
  induction es generalizing w with
  | nil => rfl
  | cons e es ih =>
    simp only [run]
    rw [ih, step_lastHealth]
    cases e <;> simp [lastNotified]

/-- C1: along every sequence of events, a health notification with value `h`
emits `totem_pop` (once) if and only if the cooldown gate is open at that
moment, the health on record (the value of the previous health notification)
is at most 4, and `h` is greater than it and greater than 1.  From an open
gate the notifications 20, 3, 15 emit exactly once; the notifications
20, 3, 2 emit nothing when no near-death health is on record before them. -/
theorem C1_health_emission (c : Cfg) :
    (∀ (w : World) (es : List Ev) (h : Health),
        (step c (run c w es) (Ev.health h)).2 =
          if (run c w es).totemPopCooldown ≤ 0 ∧
              jsLe (lastNotified w.lastHealth es) (some 4) = true ∧
              jsGt h (lastNotified w.lastHealth es) = true ∧ jsGt h (some 1) = true
          then [Obs.totemPop] else []) ∧
    (∀ w : World, w.totemPopCooldown ≤ 0 →
        trace c w (healthEvents [some 20, some 3, some 15]) = [Obs.totemPop]) ∧
    (∀ w : World, w.totemPopCooldown ≤ 0 → jsLe w.lastHealth (some 4) = false →
        trace c w (healthEvents [some 20, some 3, some 2]) = []) := by
  refine ⟨?_, ?_, ?_⟩
  · intro w es h
    rw [← run_lastHealth c w es]
    exact onHealth_obs h (run c w es)
  · intro w hw
    have e1 := onHealth_obs (some 20) w
    have l1 := onHealth_lastHealth (some 20) w
    have c1 := onHealth_cooldown (some 20) w
    have e2 := onHealth_obs (some 3) (onHealth (some 20) w).1
    have l2 := onHealth_lastHealth (some 3) (onHealth (some 20) w).1
    have c2 := onHealth_cooldown (some 3) (onHealth (some 20) w).1
    have e3 := onHealth_obs (some 15) (onHealth (some 3) (onHealth (some 20) w).1).1
    have k2 : jsLe (some (20 : ℚ)) (some 4) = false := by decide
    have k3 : jsLe (some (3 : ℚ)) (some 4) = true ∧ jsGt (some (15 : ℚ)) (some 3) = true ∧
        jsGt (some (15 : ℚ)) (some 1) = true := by decide
    rw [l1, k2] at e2
    simp only [Bool.false_eq_true, false_and, and_false, if_false] at e2
    rw [e2] at c2
    simp only [List.not_mem_nil, if_false] at c2
    rw [l2] at e3
    simp only [k3, and_true, true_and] at e3
    simp only [healthEvents, List.map, trace, step, e2, List.nil_append, List.append_nil, e3, c2]
    by_cases hL : jsLe w.lastHealth (some 4) = true
    · have hg : jsGt (some (20 : ℚ)) w.lastHealth = true ∧ jsGt (some (20 : ℚ)) (some 1) = true := by
        cases hq : w.lastHealth with
        | none => simp [hq, jsLe] at hL
        | some q =>
          simp only [hq, jsLe, decide_eq_true_eq] at hL
          simp only [jsGt, decide_eq_true_eq]
          constructor <;> linarith
      simp only [hw, hL, hg, and_self, if_true] at e1
      rw [e1] at c1
      simp only [List.mem_singleton, if_true] at c1
      rw [e1, c1]
      norm_num
    · simp only [hL, Bool.false_eq_true, false_and, and_false, if_false] at e1
      rw [e1] at c1
      simp only [List.not_mem_nil, if_false] at c1
      rw [e1, c1]
      simp [hw]
  · intro w hw hL
    have e1 := onHealth_obs (some 20) w
    have l1 := onHealth_lastHealth (some 20) w
    have e2 := onHealth_obs (some 3) (onHealth (some 20) w).1
    have l2 := onHealth_lastHealth (some 3) (onHealth (some 20) w).1
    have e3 := onHealth_obs (some 2) (onHealth (some 3) (onHealth (some 20) w).1).1
    have k2 : jsLe (some (20 : ℚ)) (some 4) = false := by decide
    have k3 : jsGt (some (2 : ℚ)) (some 3) = false := by decide
    rw [l1, k2] at e2
    rw [l2, k3] at e3
    simp only [hL, Bool.false_eq_true, false_and, and_false, if_false] at e1 e2 e3
    simp only [healthEvents, List.map, trace, step, e1, e2, e3, List.append_nil]

/-- C1 at concrete values: a freshly loaded plugin (no health on record, gate
open) handles the notifications 20, 3, 15 and 20, 3, 2. -/
theorem C1_health_emission_witness :
    (init none none 0).totemPopCooldown ≤ 0 ∧
    jsLe (init none none 0).lastHealth (some 4) = false ∧
    trace ⟨7, 1, true⟩ (init none none 0) (healthEvents [some 20, some 3, some 15])
      = [Obs.totemPop] ∧
    trace ⟨7, 1, true⟩ (init none none 0) (healthEvents [some 20, some 3, some 2]) = [] :=
  ⟨by decide, by decide,
    (C1_health_emission ⟨7, 1, true⟩).2.1 (init none none 0) (by decide),
    (C1_health_emission ⟨7, 1, true⟩).2.2 (init none none 0) (by decide) (by decide)⟩

/-- C2: whatever events are interleaved, two emissions of `totem_pop` have at
least 20 physics ticks between them; and a qualifying signal that arrives
`ticks mid` ticks after an emission, nothing having been emitted since, is
emitted if and only if `20 ≤ ticks mid`. -/
theorem C2_cooldown_separation (c : Cfg) :
    (∀ (w : World) (e1 e2 : Ev) (mid : List Ev),
        Obs.totemPop ∈ (step c w e1).2 →
        Obs.totemPop ∈ (step c (run c (step c w e1).1 mid) e2).2 →
        20 ≤ ticks mid) ∧
    (∀ (w : World) (e1 q : Ev) (mid : List Ev),
        Obs.totemPop ∈ (step c w e1).2 →
        Obs.totemPop ∉ trace c (step c w e1).1 mid →
        qualifies c (run c (step c w e1).1 mid) q →
        (Obs.totemPop ∈ (step c (run c (step c w e1).1 mid) q).2 ↔ 20 ≤ ticks mid)) := by
  constructor
  · intro w e1 e2 mid h1 h2
    have hc := step_cooldown c w e1
    simp only [h1, if_true] at hc
    have hge := run_cooldown_ge c (step c w e1).1 mid
    have hle := step_totemPop_open c _ e2 h2
    omega
  · intro w e1 q mid h1 hquiet hq
    have hc := step_cooldown c w e1
    simp only [h1, if_true] at hc
    have hx := run_cooldown_quiet c (step c w e1).1 mid (by omega) hquiet
    rw [step_qualifies c _ q hq, hx, hc]
    omega

/-- C2 at concrete values: a status packet emits, 20 ticks pass, and the same
packet emits again; after 19 ticks it would not. -/
theorem C2_cooldown_separation_witness :
    20 ≤ ticks (List.replicate 20 Ev.tick) ∧
    (Obs.totemPop ∈ (step ⟨7, 1, true⟩
        (run ⟨7, 1, true⟩ (step ⟨7, 1, true⟩ (init none none 0) (Ev.status 1 35)).1
          (List.replicate 19 Ev.tick)) (Ev.status 1 35)).2 ↔
      20 ≤ ticks (List.replicate 19 Ev.tick)) :=
  ⟨(C2_cooldown_separation ⟨7, 1, true⟩).1 (init none none 0) (Ev.status 1 35) (Ev.status 1 35)
      (List.replicate 20 Ev.tick) (by decide) (by decide),
    (C2_cooldown_separation ⟨7, 1, true⟩).2 (init none none 0) (Ev.status 1 35) (Ev.status 1 35)
      (List.replicate 19 Ev.tick) (by decide) (by decide) ⟨rfl, rfl⟩⟩

/-- C3: a status packet emits `totem_pop` (once) if and only if its entity id
is the bot's, its status code is 35 and the cooldown gate is open.  A matching
packet on an open gate emits exactly once and the same packet 5 ticks later
emits nothing; a packet with another entity id or another status code leaves
the world as it is, the gate included, and emits nothing. -/
theorem C3_status_emission (c : Cfg) :
    (∀ (w : World) (entityId entityStatus : Int),
        (step c w (Ev.status entityId entityStatus)).2 =
          if entityId = c.entityId ∧ entityStatus = 35 ∧ w.totemPopCooldown ≤ 0
          then [Obs.totemPop] else []) ∧
    (∀ (w : World) (mid : List Ev), w.totemPopCooldown ≤ 0 → ticks mid = 5 →
        (step c w (Ev.status c.entityId 35)).2 = [Obs.totemPop] ∧
        (step c (run c (step c w (Ev.status c.entityId 35)).1 mid)
          (Ev.status c.entityId 35)).2 = []) ∧
    (∀ (w : World) (entityId entityStatus : Int),
        ¬ (entityId = c.entityId ∧ entityStatus = 35) →
        step c w (Ev.status entityId entityStatus) = (w, [])) := by
  refine ⟨fun w a b => onEntityStatus_obs c a b w, ?_, ?_⟩
  · intro w mid hw hmid
    have h1 : (step c w (Ev.status c.entityId 35)).2 = [Obs.totemPop] := by
      simp [step, onEntityStatus_obs, hw]
    refine ⟨h1, ?_⟩
    have hc := step_cooldown c w (Ev.status c.entityId 35)
    simp only [h1, List.mem_singleton, if_true] at hc
    have hge := run_cooldown_ge c (step c w (Ev.status c.entityId 35)).1 mid
    have hpos : ¬ (run c (step c w (Ev.status c.entityId 35)).1 mid).totemPopCooldown ≤ 0 := by
      omega
    rw [(show (step c (run c (step c w (Ev.status c.entityId 35)).1 mid)
        (Ev.status c.entityId 35)).2 = _ from onEntityStatus_obs c _ _ _)]
    simp only [hpos, and_false, if_false]
  · intro w a b hne
    simp only [step, onEntityStatus, hne, if_false]

/-- C3 at concrete values: a fresh plugin receives the bot's packet with code
35, five ticks pass, and it receives the packet again; a packet for entity 2
changes nothing. -/
theorem C3_status_emission_witness :
    (step ⟨7, 1, true⟩ (init none none 0) (Ev.status 1 35)).2 = [Obs.totemPop] ∧
    (step ⟨7, 1, true⟩
      (run ⟨7, 1, true⟩ (step ⟨7, 1, true⟩ (init none none 0) (Ev.status 1 35)).1
        (List.replicate 5 Ev.tick)) (Ev.status 1 35)).2 = [] ∧
    step ⟨7, 1, true⟩ (init none none 0) (Ev.status 2 35) = (init none none 0, []) :=
  ⟨((C3_status_emission ⟨7, 1, true⟩).2.1 (init none none 0) (List.replicate 5 Ev.tick)
      (by decide) (by decide)).1,
    ((C3_status_emission ⟨7, 1, true⟩).2.1 (init none none 0) (List.replicate 5 Ev.tick)
      (by decide) (by decide)).2,
    (C3_status_emission ⟨7, 1, true⟩).2.2 (init none none 0) 2 35 (by decide)⟩

/-! ## The equip maintainer -/

theorem catchBranch_obs (err : JsErr) (w : World) :
    (catchBranch err w).2 =
      [Obs.caught err (decide (w.now - w.lastErrorTime > errorThrottleMs))] := by
  simp only [catchBranch]
  split_ifs with h1 h2 <;> simp [h1]

theorem catchBranch_pending (err : JsErr) (w : World) :
    (catchBranch err w).1.pending = w.pending := by
  simp only [catchBranch]
  split_ifs <;> rfl

/-- An invocation that finds the system inactive, a backoff timer set, or the
totem in the offhand slot does nothing at all. -/
theorem equipTotemListener_noop (c : Cfg) (w : World)
    (h : w.isActive = false ∨ w.retryTimeout.isSome = true ∨
      ∃ inv, w.inventory = some inv ∧ holdsTotem c inv = true) :
    equipTotemListener c w = (w, []) := by
  unfold equipTotemListener
  rcases h with h | h | ⟨inv, h1, h2⟩
  · simp [h]
  · simp [h]
  · split_ifs
    · rfl
    · rfl
    · simp [h1, h2]

/-- A tick whose invocation does nothing does nothing, however often the
listener is registered. -/
theorem invokeTimes_noop (c : Cfg) (n : Nat) (w : World)
    (h : equipTotemListener c w = (w, [])) : invokeTimes c n w = (w, []) := by
  induction n with
  | zero => rfl
  | succ n ih => simp [invokeTimes, h, ih]

/-- An invocation that passes the guards and finds a totem to move calls
`bot.equip` and is suspended. -/
theorem equipTotemListener_equip (c : Cfg) (w : World) (inv : Inventory) (totem : Item)
    (ha : w.isActive = true) (hr : w.retryTimeout = none) (hi : w.inventory = some inv)
    (hh : holdsTotem c inv = false) (hf : findTotem c inv = some totem) :
    equipTotemListener c w =
      ({ w with
          pending := w.pending ++ [⟨w.nextId, totem, Stage.equip⟩]
          nextId := w.nextId + 1 },
        [Obs.equip totem]) := by
  unfold equipTotemListener
  simp [ha, hr, hi, hh, hf]

/-- An invocation that passes the guards and finds no totem anywhere resets
the failure count. -/
theorem equipTotemListener_none (c : Cfg) (w : World) (inv : Inventory)
    (ha : w.isActive = true) (hr : w.retryTimeout = none) (hi : w.inventory = some inv)
    (hh : holdsTotem c inv = false) (hf : findTotem c inv = none) :
    equipTotemListener c w = ({ w with errorCount := 0 }, []) := by
  unfold equipTotemListener
  simp [ha, hr, hi, hh, hf]

/-- The calls of an invocation do not depend on the suspended invocations. -/
theorem equipTotemListener_obs_pending (c : Cfg) (w : World) (ps : List Pending) :
    (equipTotemListener c { w with pending := ps }).2 = (equipTotemListener c w).2 := by
  unfold equipTotemListener
  simp only
  split_ifs
  · rfl
  · rfl
  · split
    · simp [catchBranch_obs]
    · split_ifs
      · rfl
      · split <;> rfl

/-- C4, as the code has it: `equipTotemListener` has no single-flight guard.
The calls an invocation makes are the same whatever invocations are
suspended.  It calls `bot.equip` whenever the system is active, no backoff
timer is set, the offhand item is not a totem and the inventory holds one,
also while an earlier transfer is pending, and then one more transfer is in
flight; in every other case it issues no transfer and the number of transfers
in flight stays as it is. -/
theorem C4_no_single_flight (c : Cfg) (w : World) :
    (∀ ps : List Pending,
        (equipTotemListener c { w with pending := ps }).2 = (equipTotemListener c w).2) ∧
    (∀ (inv : Inventory) (totem : Item),
        w.isActive = true → w.retryTimeout = none → w.inventory = some inv →
        holdsTotem c inv = false → findTotem c inv = some totem →
        (equipTotemListener c w).2 = [Obs.equip totem] ∧
        inFlight (equipTotemListener c w).1 = inFlight w + 1) ∧
    (¬ (w.isActive = true ∧ w.retryTimeout = none ∧
        ∃ inv totem, w.inventory = some inv ∧ holdsTotem c inv = false ∧
          findTotem c inv = some totem) →
        (∀ o ∈ (equipTotemListener c w).2, isTransfer o = false) ∧
        inFlight (equipTotemListener c w).1 = inFlight w) := by
  refine ⟨equipTotemListener_obs_pending c w, ?_, ?_⟩
  · intro inv totem ha hr hi hh hf
    rw [equipTotemListener_equip c w inv totem ha hr hi hh hf]
    simp [inFlight]
  · intro h
    by_cases ha : w.isActive = true
    swap
    · rw [equipTotemListener_noop c w (Or.inl (by simpa using ha))]
      simp
    cases hr : w.retryTimeout with
    | some id =>
      rw [equipTotemListener_noop c w (Or.inr (Or.inl (by simp [hr])))]
      simp
    | none =>
      cases hi : w.inventory with
      | none =>
        have e : equipTotemListener c w = catchBranch typeError w := by
          unfold equipTotemListener
          simp [ha, hr, hi]
        rw [e, catchBranch_obs, inFlight, inFlight, catchBranch_pending]
        simp [isTransfer]
      | some inv =>
        by_cases hh : holdsTotem c inv = true
        · rw [equipTotemListener_noop c w (Or.inr (Or.inr ⟨inv, hi, hh⟩))]
          simp
        · cases hf : findTotem c inv with
          | none =>
            rw [equipTotemListener_none c w inv ha hr hi (by simpa using hh) hf]
            simp [inFlight]
          | some totem =>
            exact absurd ⟨ha, hr, inv, totem, hi, by simpa using hh, hf⟩ h

/-- C4 at concrete values: after one tick a `bot.equip` is pending, and the
invocation of the next tick calls `bot.equip` again; a stopped plugin issues
nothing. -/
theorem C4_no_single_flight_witness :
    (equipTotemListener exampleCfg (run exampleCfg exampleWorld [Ev.tick])).2
        = [Obs.equip ⟨7, 10⟩] ∧
    inFlight (equipTotemListener exampleCfg (run exampleCfg exampleWorld [Ev.tick])).1
        = inFlight (run exampleCfg exampleWorld [Ev.tick]) + 1 ∧
    inFlight (equipTotemListener exampleCfg (stop exampleWorld)).1
        = inFlight (stop exampleWorld) :=
  ⟨((C4_no_single_flight exampleCfg (run exampleCfg exampleWorld [Ev.tick])).2.1
      exampleInv ⟨7, 10⟩ (by decide) (by decide) (by decide) (by decide) (by decide)).1,
    ((C4_no_single_flight exampleCfg (run exampleCfg exampleWorld [Ev.tick])).2.1
      exampleInv ⟨7, 10⟩ (by decide) (by decide) (by decide) (by decide) (by decide)).2,
    ((C4_no_single_flight exampleCfg (stop exampleWorld)).2.2
      (fun h => absurd h.1 (by decide))).2⟩

/-- C4 as stated fails: in the world a freshly loaded plugin reaches by one
tick, a `bot.equip` is pending, and the invocation of the next tick calls
`bot.equip` again, so that two transfers are in flight. -/
theorem C4_counterexample :
    Reachable exampleCfg (run exampleCfg exampleWorld [Ev.tick]) ∧
    inFlight (run exampleCfg exampleWorld [Ev.tick]) = 1 ∧
    (run exampleCfg exampleWorld [Ev.tick]).pending = [⟨0, ⟨7, 10⟩, Stage.equip⟩] ∧
    (step exampleCfg (run exampleCfg exampleWorld [Ev.tick]) Ev.tick).2 = [Obs.equip ⟨7, 10⟩] ∧
    inFlight (run exampleCfg exampleWorld [Ev.tick, Ev.tick]) = 2 :=
  ⟨⟨none, some exampleInv, 1000000, [Ev.tick], rfl⟩, by decide, by decide, by decide, by decide⟩

/-- C6: when the offhand item is a totem, be it the item of `slots[45]` or,
that slot being empty, the first element of the offhand collection, an
invocation of `equipTotemListener` calls neither `bot.equip` nor
`bot.clickWindow`: it makes no call and changes nothing. -/
theorem C6_idempotent (c : Cfg) (w : World) (inv : Inventory) (item : Item)
    (hi : w.inventory = some inv) (ht : item.type = c.totemId)
    (ho : (inv.slots.get? 45).join = some item ∨
      ((inv.slots.get? 45).join = none ∧ ∃ l, inv.offhand = some (some item :: l))) :
    equipTotemListener c w = (w, []) ∧
    ∀ o ∈ (equipTotemListener c w).2, isTransfer o = false := by
  have hh : holdsTotem c inv = true := by
    unfold holdsTotem offhandItem
    rcases ho with h | ⟨h, l, hl⟩
    · rw [h]
      simp [ht]
    · rw [h, hl]
      simp [ht]
  have := equipTotemListener_noop c w (Or.inr (Or.inr ⟨inv, hi, hh⟩))
  rw [this]
  simp

/-- C6 at concrete values: the totem sits in slot 45, and then in the offhand
collection of an inventory without a slot 45. -/
theorem C6_idempotent_witness :
    (equipTotemListener exampleCfg
        { exampleWorld with inventory := some exampleInvHolding }
      = ({ exampleWorld with inventory := some exampleInvHolding }, [])) ∧
    (equipTotemListener exampleCfg
        { exampleWorld with inventory := some ⟨[], some [some ⟨7, 0⟩], [⟨7, 10⟩]⟩ }
      = ({ exampleWorld with inventory := some ⟨[], some [some ⟨7, 0⟩], [⟨7, 10⟩]⟩ }, [])) :=
  ⟨(C6_idempotent exampleCfg { exampleWorld with inventory := some exampleInvHolding }
      exampleInvHolding ⟨7, 45⟩ rfl rfl (Or.inl (by decide))).1,
    (C6_idempotent exampleCfg
      { exampleWorld with inventory := some ⟨[], some [some ⟨7, 0⟩], [⟨7, 10⟩]⟩ }
      ⟨[], some [some ⟨7, 0⟩], [⟨7, 10⟩]⟩ ⟨7, 0⟩ rfl rfl
      (Or.inr ⟨by decide, [], rfl⟩)).1⟩

/-- A pass whose `bot.equip` resolves, and a pass whose second click resolves,
reset the failure count. -/
theorem resume_success (c : Cfg) (p : Pending) (w : World)
    (h : p.stage = Stage.equip ∨ p.stage = Stage.place) :
    resume c p none w = ({ w with errorCount := 0 }, []) := by
  unfold resume
  rcases h with h | h <;> simp [h]

/-- C8, at the failing input: three passes fail, the totem then turns up in
slot 45, and the pass of the next tick, which finds it there, completes
without a failure and without a call but leaves the failure count at 3. -/
theorem C8_holding_keeps_count :
    trace exampleCfg
        (run exampleCfg exampleWorld
          (failedPasses 3 0 ++ [Ev.inventory (some exampleInvHolding)])) [Ev.tick] = [] ∧
    (run exampleCfg exampleWorld
        (failedPasses 3 0 ++ [Ev.inventory (some exampleInvHolding)])).errorCount = 3 ∧
    (run exampleCfg exampleWorld
        (failedPasses 3 0 ++ [Ev.inventory (some exampleInvHolding), Ev.tick])).errorCount
      = 3 := by
  refine ⟨?_, ?_, ?_⟩ <;> decide

/-! ## The fallback strategy -/

theorem find?_filter_id (ps : List Pending) (id : Nat) :
    (ps.filter (fun q => q.id != id)).find? (fun q => q.id == id) = none := by
  rw [List.find?_eq_none]
  intro q hq
  have := (List.mem_filter.1 hq).2
  simpa using this

theorem settle_found (c : Cfg) (id : Nat) (r : Option JsErr) (w : World) (p : Pending)
    (hp : w.pending.find? (fun q => q.id == id) = some p) :
    settle c id r w =
      resume c p r { w with pending := w.pending.filter (fun q => q.id != id) } := by
  unfold settle
  rw [hp]

/-- After the suspended invocation `id` moved on to a further `await`, it is
found again under its handle, at its new stage. -/
theorem find?_moved (ps : List Pending) (id : Nat) (p : Pending) (hid : p.id = id) :
    ((ps.filter (fun q => q.id != id)) ++ [p]).find? (fun q => q.id == id) = some p := by
  rw [List.find?_append, find?_filter_id]
  simp [List.find?, hid]

theorem catchBranch_obs_ex (err : JsErr) (w : World) :
    ∃ reported, (catchBranch err w).2 = [Obs.caught err reported] :=
  ⟨_, catchBranch_obs err w⟩

/-- C10: let the `bot.equip` of a suspended invocation reject with an error
of message `m`.  If `m` contains `invalid destination: offhand` and
`bot.clickWindow` exists, the invocation calls `clickWindow(totem.slot, 0, 0)`
and, once that resolves, `clickWindow(45, 0, 0)`; if the first or the second
click rejects with message `m2`, no further click is made and the outer
`catch` receives an error with message `Failed alternative equip method: `
followed by `m2`; when both resolve the pass ends without a failure.  If `m`
does not contain the text, no click is made and the outer `catch` receives
the error of message `m` itself. -/
theorem C10_fallback (c : Cfg) (w : World) (id : Nat) (p : Pending)
    (hp : w.pending.find? (fun q => q.id == id) = some p) (hs : p.stage = Stage.equip) :
    (∀ (m : String) (w1 w2 : World),
        includes m "invalid destination: offhand" = true → c.hasClickWindow = true →
        w1 = (step c w (Ev.settle id (some (JsErr.error m)))).1 →
        w2 = (step c w1 (Ev.settle id none)).1 →
        (step c w (Ev.settle id (some (JsErr.error m)))).2
            = [Obs.clickWindow p.totem.slot 0 0] ∧
        (step c w1 (Ev.settle id none)).2 = [Obs.clickWindow 45 0 0] ∧
        (step c w2 (Ev.settle id none)).2 = [] ∧
        (∀ m2, ∃ reported, (step c w1 (Ev.settle id (some (JsErr.error m2)))).2
            = [Obs.caught (JsErr.error ("Failed alternative equip method: " ++ m2)) reported]) ∧
        (∀ m2, ∃ reported, (step c w2 (Ev.settle id (some (JsErr.error m2)))).2
            = [Obs.caught (JsErr.error ("Failed alternative equip method: " ++ m2)) reported])) ∧
    (∀ m : String, includes m "invalid destination: offhand" = false →
        ∃ reported, (step c w (Ev.settle id (some (JsErr.error m)))).2
            = [Obs.caught (JsErr.error m) reported]) := by
  have hid : p.id = id := by
    have := List.find?_some hp
    simpa using this
  constructor
  · intro m w1 w2 hm hc h1 h2
    have e1 : step c w (Ev.settle id (some (JsErr.error m))) =
        ({ w with pending := w.pending.filter (fun q => q.id != id) ++
              [{ p with stage := Stage.pickUp }] },
          [Obs.clickWindow p.totem.slot 0 0]) := by
      simp only [step]
      rw [settle_found c id _ w p hp]
      simp [resume, hs, hm, hc]
    rw [e1] at h1
    simp only at h1
    have f1 : w1.pending.find? (fun q => q.id == id) = some { p with stage := Stage.pickUp } := by
      rw [h1]
      exact find?_moved _ id _ hid
    have e2 : step c w1 (Ev.settle id none) =
        ({ w1 with pending := w1.pending.filter (fun q => q.id != id) ++
              [{ p with stage := Stage.place }] },
          [Obs.clickWindow 45 0 0]) := by
      simp only [step]
      rw [settle_found c id _ w1 _ f1]
      simp [resume]
    rw [e2] at h2
    simp only at h2
    have f2 : w2.pending.find? (fun q => q.id == id) = some { p with stage := Stage.place } := by
      rw [h2]
      exact find?_moved _ id _ hid
    refine ⟨by rw [e1], by rw [e2], ?_, ?_, ?_⟩
    · simp only [step]
      rw [settle_found c id _ w2 _ f2]
      simp [resume]
    · intro m2
      simp only [step]
      rw [settle_found c id _ w1 _ f1]
      simp only [resume, wrapAltErr]
      exact catchBranch_obs_ex _ _
    · intro m2
      simp only [step]
      rw [settle_found c id _ w2 _ f2]
      simp only [resume, wrapAltErr]
      exact catchBranch_obs_ex _ _
  · intro m hm
    simp only [step]
    rw [settle_found c id _ w p hp]
    simp only [resume, hs, hm, Bool.false_eq_true, if_false]
    exact catchBranch_obs_ex _ _

/-- C10 at concrete values: the `bot.equip` of the invocation suspended after
one tick rejects, once with the offhand message and once with `boom`. -/
theorem C10_fallback_witness :
    (step exampleCfg (run exampleCfg exampleWorld [Ev.tick])
        (Ev.settle 0 (some (JsErr.error "invalid destination: offhand")))).2
      = [Obs.clickWindow 10 0 0] ∧
    (∃ reported, (step exampleCfg (run exampleCfg exampleWorld [Ev.tick])
        (Ev.settle 0 (some (JsErr.error "boom")))).2
      = [Obs.caught (JsErr.error "boom") reported]) :=
  ⟨((C10_fallback exampleCfg (run exampleCfg exampleWorld [Ev.tick]) 0
        ⟨0, ⟨7, 10⟩, Stage.equip⟩ (by decide) rfl).1 "invalid destination: offhand" _ _
        (by decide) (by decide) rfl rfl).1,
    (C10_fallback exampleCfg (run exampleCfg exampleWorld [Ev.tick]) 0
        ⟨0, ⟨7, 10⟩, Stage.equip⟩ (by decide) rfl).2 "boom" (by decide)⟩

/-! ## The error-storm governor -/

theorem Throttled.nil (l : Int) : Throttled l [] l := by
  simp [Throttled]

theorem Throttled.append {l l1 l2 : Int} {ts us : List Int}
    (h1 : Throttled l ts l1) (h2 : Throttled l1 us l2) : Throttled l (ts ++ us) l2 := by
  obtain ⟨a1, b1, c1, d1⟩ := h1
  obtain ⟨a2, b2, c2, d2⟩ := h2
  refine ⟨?_, ?_, ?_, by omega⟩
  · intro t ht
    rcases List.mem_append.1 ht with h | h
    · exact a1 t h
    · have := a2 t h
      omega
  · rw [List.pairwise_append]
    refine ⟨b1, b2, ?_⟩
    intro a ha b hb
    have := c1 a ha
    have := a2 b hb
    omega
  · intro t ht
    rcases List.mem_append.1 ht with h | h
    · have := c1 t h
      omega
    · exact c2 t h

theorem catchBranch_throttled (err : JsErr) (w : World) :
    Throttled w.lastErrorTime (reportsAt w.now (catchBranch err w).2)
        (catchBranch err w).1.lastErrorTime ∧
      (catchBranch err w).1.now = w.now := by
  simp only [catchBranch]
  split_ifs with h1 h2
  all_goals simp [Throttled, reportsAt, isReport]
  all_goals simp [errorThrottleMs] at h1 ⊢
  all_goals omega

theorem equipTotemListener_throttled (c : Cfg) (w : World) :
    Throttled w.lastErrorTime (reportsAt w.now (equipTotemListener c w).2)
        (equipTotemListener c w).1.lastErrorTime ∧
      (equipTotemListener c w).1.now = w.now := by
  unfold equipTotemListener
  split_ifs
  · exact ⟨Throttled.nil _, rfl⟩
  · exact ⟨Throttled.nil _, rfl⟩
  · split
    · exact catchBranch_throttled _ _
    · split_ifs
      · exact ⟨Throttled.nil _, rfl⟩
      · split
        · exact ⟨by simpa [reportsAt, isReport] using Throttled.nil _, rfl⟩
        · exact ⟨Throttled.nil _, rfl⟩

theorem reportsAt_append (now : Int) (os ps : List Obs) :
    reportsAt now (os ++ ps) = reportsAt now os ++ reportsAt now ps := by
  simp [reportsAt]

theorem invokeTimes_throttled (c : Cfg) (n : Nat) (w : World) :
    Throttled w.lastErrorTime (reportsAt w.now (invokeTimes c n w).2)
        (invokeTimes c n w).1.lastErrorTime ∧
      (invokeTimes c n w).1.now = w.now := by
  induction n generalizing w with
  | zero => exact ⟨Throttled.nil _, rfl⟩
  | succ n ih =>
    obtain ⟨h1, h2⟩ := equipTotemListener_throttled c w
    obtain ⟨k1, k2⟩ := ih (equipTotemListener c w).1
    simp only [invokeTimes, reportsAt_append]
    rw [h2] at k1
    exact ⟨h1.append k1, by rw [k2, h2]⟩

/-- The ways an invocation can go from its call to its first `await`. -/
theorem equipTotemListener_cases (c : Cfg) (w : World) :
    equipTotemListener c w = (w, []) ∨
    equipTotemListener c w = catchBranch typeError w ∨
    equipTotemListener c w = ({ w with errorCount := 0 }, []) ∨
    ∃ totem, equipTotemListener c w =
      ({ w with
          pending := w.pending ++ [⟨w.nextId, totem, Stage.equip⟩]
          nextId := w.nextId + 1 },
        [Obs.equip totem]) := by
  unfold equipTotemListener
  split_ifs
  · exact Or.inl rfl
  · exact Or.inl rfl
  · split
    · exact Or.inr (Or.inl rfl)
    · split_ifs
      · exact Or.inl rfl
      · split
        · exact Or.inr (Or.inr (Or.inr ⟨_, rfl⟩))
        · exact Or.inr (Or.inr (Or.inl rfl))

/-- The ways a suspended invocation can go on when its promise settles. -/
theorem resume_cases (c : Cfg) (p : Pending) (r : Option JsErr) (w : World) :
    (∃ err, resume c p r w = catchBranch err w) ∨
    resume c p r w = ({ w with errorCount := 0 }, []) ∨
    ∃ q slot, resume c p r w =
      ({ w with pending := w.pending ++ [q] }, [Obs.clickWindow slot 0 0]) := by
  unfold resume
  split
  · exact Or.inr (Or.inl rfl)
  · split_ifs
    · exact Or.inr (Or.inr ⟨_, _, rfl⟩)
    · exact Or.inr (Or.inl rfl)
    · exact Or.inl ⟨_, rfl⟩
  · exact Or.inl ⟨_, rfl⟩
  · exact Or.inr (Or.inr ⟨_, _, rfl⟩)
  · exact Or.inl ⟨_, rfl⟩
  · exact Or.inr (Or.inl rfl)
  · exact Or.inl ⟨_, rfl⟩

theorem resume_throttled (c : Cfg) (p : Pending) (r : Option JsErr) (w : World) :
    Throttled w.lastErrorTime (reportsAt w.now (resume c p r w).2)
        (resume c p r w).1.lastErrorTime := by
  rcases resume_cases c p r w with ⟨err, h⟩ | h | ⟨q, slot, h⟩
  · rw [h]
    exact (catchBranch_throttled _ _).1
  · rw [h]
    exact Throttled.nil _
  · rw [h]
    simpa [reportsAt, isReport] using Throttled.nil w.lastErrorTime

theorem step_throttled (c : Cfg) (w : World) (e : Ev) :
    Throttled w.lastErrorTime (reportsAt w.now (step c w e).2) (step c w e).1.lastErrorTime := by
  cases e with
  | tick =>
    have := (invokeTimes_throttled c w.listeners (cooldownTick w)).1
    have h1 : (cooldownTick w).lastErrorTime = w.lastErrorTime := by
      unfold cooldownTick; split_ifs <;> rfl
    have h2 : (cooldownTick w).now = w.now := by
      unfold cooldownTick; split_ifs <;> rfl
    rw [h1, h2] at this
    exact this
  | health h =>
    simp only [step, onHealth, checkTotemActivation, emitTotemPop]
    split_ifs <;> exact (by simpa [reportsAt, isReport] using Throttled.nil _)
  | status a b =>
    simp only [step, onEntityStatus, emitTotemPop]
    split_ifs <;> exact (by simpa [reportsAt, isReport] using Throttled.nil _)
  | collect a =>
    simp only [step, onPlayerCollect]
    split_ifs <;> exact Throttled.nil _
  | timer id =>
    simp only [step, fireTimer]
    split
    · exact Throttled.nil _
    · split_ifs
      · split
        · exact Throttled.nil _
        · exact (equipTotemListener_throttled c (clearTimeout id w)).1
      · exact Throttled.nil _
  | settle id r =>
    simp only [step, settle]
    split
    · exact Throttled.nil _
    · exact resume_throttled c _ r { w with pending := w.pending.filter (fun q => q.id != id) }
  | stop =>
    simp only [step, stop]
    split_ifs
    · exact Throttled.nil _
    · split <;> exact Throttled.nil _
  | start =>
    simp only [step, start]
    split_ifs
    · exact Throttled.nil _
    · split <;> exact Throttled.nil _
  | unload =>
    simp only [step, unload, stop]
    split_ifs
    · exact Throttled.nil _
    · split <;> exact Throttled.nil _
  | inventory inv => exact Throttled.nil _
  | clock t => exact Throttled.nil _

theorem run_throttled (c : Cfg) (w : World) (es : List Ev) :
    Throttled w.lastErrorTime (reportTimes c w es) (run c w es).lastErrorTime := by
  induction es generalizing w with
  | nil => exact Throttled.nil _
  | cons e es ih => exact (step_throttled c w e).append (ih _)

/-- At most one member of a list whose members are pairwise more than 10000
apart, in order, lies in a window of length 10000. -/
theorem window_le_one (ts : List Int) (a : Int)
    (h : ts.Pairwise (fun x y => y - x > errorThrottleMs)) :
    (ts.filter (fun t => decide (a ≤ t ∧ t ≤ a + errorThrottleMs))).length ≤ 1 := by
  have hp := h.filter (fun t => decide (a ≤ t ∧ t ≤ a + errorThrottleMs))
  generalize hl : ts.filter (fun t => decide (a ≤ t ∧ t ≤ a + errorThrottleMs)) = l at hp
  have hm : ∀ t ∈ l, a ≤ t ∧ t ≤ a + errorThrottleMs := by
    intro t ht
    rw [← hl] at ht
    simpa using (List.mem_filter.1 ht).2
  match l, hp, hm with
  | [], _, _ => simp
  | [_], _, _ => simp
  | x :: y :: _, hp, hm =>
    have hxy := (List.pairwise_cons.1 hp).1 y (by simp)
    have hx := hm x (by simp)
    have hy := hm y (by simp)
    omega

/-- C9: along every sequence of events, with whatever successes, ticks and
lifecycle calls between the failures, any two failures that take the
reporting branch happen at clock values more than 10000 ms apart, the later
after the earlier, so that every window of 10000 ms holds at most one of
them; and every failure, reported or not, raises the failure count by
exactly 1. -/
theorem C9_throttle (c : Cfg) (w : World) (es : List Ev) :
    (reportTimes c w es).Pairwise (fun t1 t2 => t2 - t1 > 10000) ∧
    (∀ a : Int,
        ((reportTimes c w es).filter (fun t => decide (a ≤ t ∧ t ≤ a + 10000))).length ≤ 1) ∧
    (∀ (err : JsErr) (v : World),
        (catchBranch err v).1.errorCount = v.errorCount + 1 ∧
        (catchBranch err v).2 = [Obs.caught err (decide (v.now - v.lastErrorTime > 10000))] ∧
        (catchBranch err v).1.lastErrorTime =
          if v.now - v.lastErrorTime > 10000 then v.now else v.lastErrorTime) := by
  have h := (run_throttled c w es).2.1
  refine ⟨h, fun a => window_le_one _ a h, ?_⟩
  intro err v
  refine ⟨?_, catchBranch_obs err v, ?_⟩
  · simp only [catchBranch]
    split_ifs <;> rfl
  · simp only [catchBranch, errorThrottleMs]
    split_ifs <;> rfl

/-! ## The lifecycle controller -/

theorem catchBranch_life (err : JsErr) (w : World) :
    (catchBranch err w).1.isActive = w.isActive ∧
      (catchBranch err w).1.listeners = w.listeners ∧
      (catchBranch err w).1.inventory = w.inventory := by
  simp only [catchBranch]
  split_ifs <;> simp

theorem equipTotemListener_life (c : Cfg) (w : World) :
    (equipTotemListener c w).1.isActive = w.isActive ∧
      (equipTotemListener c w).1.listeners = w.listeners ∧
      (equipTotemListener c w).1.inventory = w.inventory := by
  rcases equipTotemListener_cases c w with h | h | h | ⟨t, h⟩
  · rw [h]; simp
  · rw [h]; exact catchBranch_life _ _
  · rw [h]; simp
  · rw [h]; simp

theorem invokeTimes_life (c : Cfg) (n : Nat) (w : World) :
    (invokeTimes c n w).1.isActive = w.isActive ∧
      (invokeTimes c n w).1.listeners = w.listeners ∧
      (invokeTimes c n w).1.inventory = w.inventory := by
  induction n generalizing w with
  | zero => simp [invokeTimes]
  | succ n ih =>
    obtain ⟨h1, h2, h3⟩ := equipTotemListener_life c w
    obtain ⟨k1, k2, k3⟩ := ih (equipTotemListener c w).1
    simp only [invokeTimes]
    exact ⟨by rw [k1, h1], by rw [k2, h2], by rw [k3, h3]⟩

theorem resume_life (c : Cfg) (p : Pending) (r : Option JsErr) (w : World) :
    (resume c p r w).1.isActive = w.isActive ∧
      (resume c p r w).1.listeners = w.listeners ∧
      (resume c p r w).1.inventory = w.inventory := by
  rcases resume_cases c p r w with ⟨err, h⟩ | h | ⟨q, slot, h⟩
  · rw [h]; exact catchBranch_life _ _
  · rw [h]; simp
  · rw [h]; simp

theorem cooldownTick_life (w : World) :
    (cooldownTick w).isActive = w.isActive ∧ (cooldownTick w).listeners = w.listeners ∧
      (cooldownTick w).inventory = w.inventory ∧
      (cooldownTick w).retryTimeout = w.retryTimeout := by
  unfold cooldownTick
  split_ifs <;> simp

/-- Only `stop`, `start` and `unload` change whether the system is active
and how often the listener is registered. -/
theorem step_life (c : Cfg) (w : World) (e : Ev)
    (h1 : e ≠ Ev.stop) (h2 : e ≠ Ev.start) (h3 : e ≠ Ev.unload) :
    (step c w e).1.isActive = w.isActive ∧ (step c w e).1.listeners = w.listeners := by
  cases e with
  | tick =>
    obtain ⟨a, b, _⟩ := invokeTimes_life c w.listeners (cooldownTick w)
    obtain ⟨a2, b2, _⟩ := cooldownTick_life w
    simp only [step]
    exact ⟨by rw [a, a2], by rw [b, b2]⟩
  | health h =>
    simp only [step, onHealth, checkTotemActivation, emitTotemPop]
    split_ifs <;> simp
  | status a b =>
    simp only [step, onEntityStatus, emitTotemPop]
    split_ifs <;> simp
  | collect a =>
    simp only [step, onPlayerCollect]
    split_ifs <;> simp
  | timer id =>
    simp only [step, fireTimer]
    split
    · simp
    · split_ifs
      · split
        · simp [clearTimeout]
        · obtain ⟨a, b, _⟩ := equipTotemListener_life c (clearTimeout id w)
          exact ⟨a, b⟩
      · simp
  | settle id r =>
    simp only [step, settle]
    split
    · simp
    · obtain ⟨a, b, _⟩ :=
        resume_life c _ r { w with pending := w.pending.filter (fun q => q.id != id) }
      exact ⟨a, b⟩
  | stop => exact absurd rfl h1
  | start => exact absurd rfl h2
  | unload => exact absurd rfl h3
  | inventory inv => simp [step]
  | clock t => simp [step]

theorem stop_inactive (w : World) : (stop w).isActive = false := by
  cases hA : w.isActive <;> cases hR : w.retryTimeout <;> simp [stop, hA, hR, clearTimeout]

theorem stop_attached (w : World) (h : Attached w) : Attached (stop w) := by
  unfold Attached at h ⊢
  cases hA : w.isActive <;> cases hR : w.retryTimeout <;>
    simp [stop, hA, hR, clearTimeout] at h ⊢ <;> simp [h]

theorem start_attached (w : World) (h : Attached w) : Attached (start w) := by
  unfold Attached at h ⊢
  cases hA : w.isActive <;> cases hR : w.retryTimeout <;>
    simp [start, hA, hR, clearTimeout] at h ⊢ <;> simp [h]

theorem step_attached (c : Cfg) (w : World) (e : Ev) (h : Attached w) :
    Attached (step c w e).1 := by
  by_cases h1 : e = Ev.stop
  · subst h1; exact stop_attached w h
  by_cases h2 : e = Ev.start
  · subst h2; exact start_attached w h
  by_cases h3 : e = Ev.unload
  · subst h3; exact stop_attached w h
  obtain ⟨a, b⟩ := step_life c w e h1 h2 h3
  unfold Attached at h ⊢
  rw [a, b]
  exact h

theorem run_attached (c : Cfg) (w : World) (es : List Ev) (h : Attached w) :
    Attached (run c w es) := by
  induction es generalizing w with
  | nil => exact h
  | cons e es ih => exact ih _ (step_attached c w e h)

theorem reachable_attached (c : Cfg) (w : World) (h : Reachable c w) : Attached w := by
  obtain ⟨health, inv, now, es, rfl⟩ := h
  exact run_attached c _ es (by simp [Attached, init])

theorem run_inactive (c : Cfg) (w : World) (es : List Ev)
    (h : w.isActive = false) (hs : Ev.start ∉ es) : (run c w es).isActive = false := by
  induction es generalizing w with
  | nil => exact h
  | cons e es ih =>
    simp only [List.mem_cons, not_or] at hs
    refine ih _ ?_ hs.2
    by_cases h1 : e = Ev.stop
    · subst h1; exact stop_inactive w
    by_cases h3 : e = Ev.unload
    · subst h3; exact stop_inactive w
    rw [(step_life c w e h1 (Ne.symm hs.1) h3).1]
    exact h

/-- While the system is inactive, only the continuation of a suspended
invocation can issue a transfer. -/
theorem step_inactive_quiet (c : Cfg) (w : World) (e : Ev) (hi : w.isActive = false)
    (he : ∀ id r, e ≠ Ev.settle id r) : ∀ o ∈ (step c w e).2, isTransfer o = false := by
  have hn : ∀ u : World, u.isActive = false → equipTotemListener c u = (u, []) :=
    fun u hu => equipTotemListener_noop c u (Or.inl hu)
  cases e with
  | tick =>
    simp only [step]
    rw [invokeTimes_noop c _ _ (hn _ (by rw [(cooldownTick_life w).1, hi]))]
    simp
  | health h =>
    simp only [step, onHealth_obs]
    split_ifs <;> simp [isTransfer]
  | status a b =>
    simp only [step, onEntityStatus_obs]
    split_ifs <;> simp [isTransfer]
  | collect a => simp [step]
  | timer id =>
    simp only [step, fireTimer]
    split
    · simp
    · split_ifs
      · split
        · simp
        · rw [hn (clearTimeout id w) (by simp [clearTimeout, hi])]
          simp
      · simp
  | settle id r => exact absurd rfl (he id r)
  | stop => simp [step]
  | start => simp [step]
  | unload => simp [step]
  | inventory inv => simp [step]
  | clock t => simp [step]

theorem trace_inactive_quiet (c : Cfg) (w : World) (es : List Ev) (hi : w.isActive = false)
    (hs : Ev.start ∉ es) (he : ∀ id r, Ev.settle id r ∉ es) :
    ∀ o ∈ trace c w es, isTransfer o = false := by
  induction es generalizing w with
  | nil => simp [trace]
  | cons e es ih =>
    intro o ho
    simp only [trace, List.mem_append] at ho
    have he1 : ∀ id r, e ≠ Ev.settle id r := fun id r h => he id r (by simp [h])
    rcases ho with ho | ho
    · exact step_inactive_quiet c w e hi he1 o ho
    · have hi2 : (step c w e).1.isActive = false :=
        run_inactive c w [e] hi (by
          simp only [List.mem_singleton]
          intro h
          exact hs (by simp [h]))
      exact ih _ hi2 (fun h => hs (by simp [h]))
        (fun id r h => he id r (by simp [h])) o ho

/-- C7: let `stop()` be called in a reachable world, and let any events but a
call of `start()` follow.  Then the system is inactive and the listener is
not registered: an invocation of `equipTotemListener` makes no call and
changes nothing, a physics tick makes no call, no timer callback (the
deferred invocation after a pickup among them) makes a call, and along the
events no transfer is issued unless a promise awaited by an invocation
suspended earlier settles.  A call of `start()` then makes the system active
with the listener registered once, the failure count 0 and no backoff timer
set, and the next tick calls `bot.equip` when the inventory asks for it. -/
theorem C7_stop_start (c : Cfg) (w : World) (hr : Reachable c w) (es : List Ev)
    (hs : Ev.start ∉ es) :
    (run c (stop w) es).isActive = false ∧
    (run c (stop w) es).listeners = 0 ∧
    equipTotemListener c (run c (stop w) es) = (run c (stop w) es, []) ∧
    (step c (run c (stop w) es) Ev.tick).2 = [] ∧
    (∀ id, (step c (run c (stop w) es) (Ev.timer id)).2 = []) ∧
    ((∀ id r, Ev.settle id r ∉ es) → ∀ o ∈ trace c (stop w) es, isTransfer o = false) ∧
    (start (run c (stop w) es)).isActive = true ∧
    (start (run c (stop w) es)).listeners = 1 ∧
    (start (run c (stop w) es)).errorCount = 0 ∧
    (start (run c (stop w) es)).retryTimeout = none ∧
    (∀ inv totem, (start (run c (stop w) es)).inventory = some inv →
        holdsTotem c inv = false → findTotem c inv = some totem →
        (step c (start (run c (stop w) es)) Ev.tick).2 = [Obs.equip totem]) := by
  have hi : (run c (stop w) es).isActive = false :=
    run_inactive c (stop w) es (stop_inactive w) hs
  have ha : Attached (run c (stop w) es) :=
    run_attached c _ es (stop_attached w (reachable_attached c w hr))
  have hl : (run c (stop w) es).listeners = 0 := by
    unfold Attached at ha
    rw [ha, hi]
    simp
  have hq := trace_inactive_quiet c (stop w) es (stop_inactive w) hs
  generalize run c (stop w) es = v at hi ha hl
  have hn : ∀ u : World, u.isActive = false → equipTotemListener c u = (u, []) :=
    fun u hu => equipTotemListener_noop c u (Or.inl hu)
  have s1 : (start v).isActive = true ∧ (start v).listeners = 1 ∧ (start v).errorCount = 0 ∧
      (start v).retryTimeout = none := by
    simp only [start, hi]
    cases v.retryTimeout <;> simp [clearTimeout, hl]
  refine ⟨hi, hl, hn v hi, ?_, ?_, hq, s1.1, s1.2.1, s1.2.2.1, s1.2.2.2, ?_⟩
  · simp [step, hl, invokeTimes]
  · intro id
    simp only [step, fireTimer]
    split
    · rfl
    · split_ifs
      · split
        · rfl
        · rw [hn (clearTimeout id v) (by simp [clearTimeout, hi])]
      · rfl
  · intro inv totem h1 h2 h3
    obtain ⟨a, b, c3, d⟩ := cooldownTick_life (start v)
    have := equipTotemListener_equip c (cooldownTick (start v)) inv totem
      (by rw [a, s1.1]) (by rw [d, s1.2.2.2]) (by rw [c3, h1]) h2 h3
    simp only [step, s1.2.1, invokeTimes, this, List.append_nil]

/-- C7 at concrete values: the plugin is stopped after a tick and a pickup,
the deferred invocation fires, and `start()` is called. -/
theorem C7_stop_start_witness :
    (step exampleCfg
        (run exampleCfg (stop (run exampleCfg exampleWorld [Ev.tick, Ev.collect 1]))
          [Ev.clock 1000050, Ev.tick]) (Ev.timer 1)).2 = [] ∧
    (∀ o ∈ trace exampleCfg (stop (run exampleCfg exampleWorld [Ev.tick, Ev.collect 1]))
          [Ev.clock 1000050, Ev.tick], isTransfer o = false) ∧
    (start (run exampleCfg (stop (run exampleCfg exampleWorld [Ev.tick, Ev.collect 1]))
          [Ev.clock 1000050, Ev.tick])).errorCount = 0 ∧
    (step exampleCfg
        (start (run exampleCfg (stop (run exampleCfg exampleWorld [Ev.tick, Ev.collect 1]))
          [Ev.clock 1000050, Ev.tick])) Ev.tick).2 = [Obs.equip ⟨7, 10⟩] :=
  ⟨(C7_stop_start exampleCfg (run exampleCfg exampleWorld [Ev.tick, Ev.collect 1])
      ⟨none, some exampleInv, 1000000, [Ev.tick, Ev.collect 1], rfl⟩
      [Ev.clock 1000050, Ev.tick] (by decide)).2.2.2.2.1 1,
    (C7_stop_start exampleCfg (run exampleCfg exampleWorld [Ev.tick, Ev.collect 1])
      ⟨none, some exampleInv, 1000000, [Ev.tick, Ev.collect 1], rfl⟩
      [Ev.clock 1000050, Ev.tick] (by decide)).2.2.2.2.2.1 (by simp),
    (C7_stop_start exampleCfg (run exampleCfg exampleWorld [Ev.tick, Ev.collect 1])
      ⟨none, some exampleInv, 1000000, [Ev.tick, Ev.collect 1], rfl⟩
      [Ev.clock 1000050, Ev.tick] (by decide)).2.2.2.2.2.2.2.2.1,
    (C7_stop_start exampleCfg (run exampleCfg exampleWorld [Ev.tick, Ev.collect 1])
      ⟨none, some exampleInv, 1000000, [Ev.tick, Ev.collect 1], rfl⟩
      [Ev.clock 1000050, Ev.tick] (by decide)).2.2.2.2.2.2.2.2.2.2 exampleInv ⟨7, 10⟩
      (by decide) (by decide) (by decide)⟩

/-! ## The backoff window -/

theorem Backoff.noop {t0 : Int} {w : World} (c : Cfg) (h : Backoff t0 w) :
    equipTotemListener c w = (w, []) :=
  equipTotemListener_noop c w (h.1.elim Or.inl (fun h => Or.inr (Or.inl h)))

theorem catchBranch_backoff (err : JsErr) (t0 : Int) (w : World) (h : Backoff t0 w) :
    Backoff t0 (catchBranch err w).1 := by
  obtain ⟨h1, h2, h3⟩ := h
  simp only [catchBranch]
  split_ifs
  · refine ⟨Or.inr rfl, h2, ?_⟩
    intro t ht hk
    rcases List.mem_append.1 ht with ht | ht
    · exact h3 t ht hk
    · simp only [List.mem_singleton] at ht
      subst ht
      simp only
      omega
  · exact ⟨h1, h2, h3⟩
  · exact ⟨h1, h2, h3⟩

theorem resume_backoff (c : Cfg) (p : Pending) (r : Option JsErr) (t0 : Int) (w : World)
    (h : Backoff t0 w) : Backoff t0 (resume c p r w).1 := by
  rcases resume_cases c p r w with ⟨err, e⟩ | e | ⟨q, slot, e⟩
  · rw [e]; exact catchBranch_backoff err t0 w h
  · rw [e]; exact h
  · rw [e]; exact h

theorem clearTimeout_backoff (id : Nat) (t0 : Int) (w : World) (h : Backoff t0 w) :
    Backoff t0 (clearTimeout id w) := by
  obtain ⟨h1, h2, h3⟩ := h
  refine ⟨h1, h2, ?_⟩
  intro t ht hk
  exact h3 t (List.mem_filter.1 ht).1 hk

theorem stop_backoff (t0 : Int) (w : World) (h : Backoff t0 w) : Backoff t0 (stop w) := by
  obtain ⟨h1, h2, h3⟩ := h
  refine ⟨Or.inl (stop_inactive w), ?_, ?_⟩
  · cases hA : w.isActive <;> cases hR : w.retryTimeout <;>
      simpa [stop, hA, hR, clearTimeout] using h2
  · cases hA : w.isActive <;> cases hR : w.retryTimeout <;>
      simp only [stop, hA, hR, clearTimeout, Bool.not_true, Bool.not_false, if_true, if_false,
        Bool.false_eq_true]
    · exact h3
    · exact h3
    · exact h3
    · intro t ht hk
      exact h3 t (List.mem_filter.1 ht).1 hk

/-- An event that lets the window stand keeps the guards closed. -/
theorem step_backoff (c : Cfg) (t0 : Int) (w : World) (e : Ev) (h : Backoff t0 w)
    (he : withinBackoff t0 e = true) : Backoff t0 (step c w e).1 := by
  cases e with
  | tick =>
    have hc : Backoff t0 (cooldownTick w) := by
      unfold cooldownTick
      split_ifs
      · exact h
      · exact h
    simp only [step]
    rw [invokeTimes_noop c _ _ (hc.noop c)]
    exact hc
  | health x =>
    simp only [step, onHealth, checkTotemActivation, emitTotemPop]
    split_ifs <;> exact h
  | status a b =>
    simp only [step, onEntityStatus, emitTotemPop]
    split_ifs <;> exact h
  | collect a =>
    simp only [step, onPlayerCollect]
    split_ifs
    · obtain ⟨h1, h2, h3⟩ := h
      refine ⟨h1, h2, ?_⟩
      intro t ht hk
      rcases List.mem_append.1 ht with ht | ht
      · exact h3 t ht hk
      · simp only [List.mem_singleton] at ht
        subst ht
        simp at hk
    · exact h
  | timer id =>
    simp only [step, fireTimer]
    split
    · exact h
    · rename_i t ht
      split_ifs with hd
      · split
        · rename_i hk
          have := h.2.2 t (List.mem_of_find?_eq_some ht) hk
          have := h.2.1
          omega
        · rw [(clearTimeout_backoff id t0 w h).noop c]
          exact clearTimeout_backoff id t0 w h
      · exact h
  | settle id r =>
    simp only [step, settle]
    split
    · exact h
    · exact resume_backoff c _ r t0 _ h
  | stop => exact stop_backoff t0 w h
  | start => simp [withinBackoff] at he
  | unload => exact stop_backoff t0 w h
  | inventory inv => exact h
  | clock t =>
    simp only [withinBackoff, decide_eq_true_eq] at he
    exact ⟨h.1, he, h.2.2⟩

theorem run_backoff (c : Cfg) (t0 : Int) (w : World) (es : List Ev) (h : Backoff t0 w)
    (hes : ∀ e ∈ es, withinBackoff t0 e = true) : Backoff t0 (run c w es) := by
  induction es generalizing w with
  | nil => exact h
  | cons e es ih =>
    exact ih _ (step_backoff c t0 w e h (hes e (by simp)))
      (fun e2 h2 => hes e2 (by simp [h2]))

/-- During a backoff window neither a tick nor a timer callback makes a
call. -/
theorem Backoff.quiet {t0 : Int} {w : World} (c : Cfg) (h : Backoff t0 w) :
    (step c w Ev.tick).2 = [] ∧ ∀ id, (step c w (Ev.timer id)).2 = [] := by
  constructor
  · have hc : Backoff t0 (cooldownTick w) := by
      unfold cooldownTick
      split_ifs
      · exact h
      · exact h
    simp only [step]
    rw [invokeTimes_noop c _ _ (hc.noop c)]
  · intro id
    simp only [step, fireTimer]
    split
    · rfl
    · split_ifs
      · split
        · rfl
        · rw [(clearTimeout_backoff id t0 w h).noop c]
      · rfl

/-- The failure that opens a window. -/
theorem catchBranch_opens (err : JsErr) (w : World)
    (h1 : w.now - w.lastErrorTime > 10000) (h2 : w.errorCount + 1 > 10) :
    catchBranch err w =
      ({ w with
          errorCount := w.errorCount + 1
          lastErrorTime := w.now
          retryTimeout := some w.nextId
          timers := w.timers ++ [⟨w.nextId, w.now + retryDelayMs, TimerKind.clearRetry⟩]
          nextId := w.nextId + 1 },
        [Obs.caught err true]) := by
  simp only [catchBranch, errorThrottleMs]
  rw [if_pos h1, if_pos h2]

/-- C5, as the code has it: a failed pass sets a backoff timer exactly when it
takes the reporting branch (the clock is more than 10000 ms past
`lastErrorTime`) and the failure count, this failure included, exceeds 10.
When it does so, no older backoff timer being pending, then as long as
`start()` is not called and the clock stays within the 5000 ms that follow,
every invocation of `equipTotemListener` makes no call and changes nothing,
and neither a tick nor a timer callback makes a call.  Once the clock has
reached the failure time plus 5000 and the timer has fired, `retryTimeout` is
null again and an invocation calls `bot.equip` when the inventory asks for
it. -/
theorem C5_backoff (c : Cfg) (err : JsErr) (w : World) :
    ((catchBranch err w).1.retryTimeout =
      if w.now - w.lastErrorTime > 10000 ∧ w.errorCount + 1 > 10 then some w.nextId
      else w.retryTimeout) ∧
    (w.now - w.lastErrorTime > 10000 → w.errorCount + 1 > 10 →
      (∀ t ∈ w.timers, t.kind ≠ TimerKind.clearRetry) →
      ∀ es : List Ev, (∀ e ∈ es, withinBackoff w.now e = true) →
        equipTotemListener c (run c (catchBranch err w).1 es)
          = (run c (catchBranch err w).1 es, []) ∧
        (step c (run c (catchBranch err w).1 es) Ev.tick).2 = [] ∧
        ∀ id, (step c (run c (catchBranch err w).1 es) (Ev.timer id)).2 = []) ∧
    (w.now - w.lastErrorTime > 10000 → w.errorCount + 1 > 10 →
      (∀ t ∈ w.timers, t.id ≠ w.nextId) →
      ∀ t : Int, w.now + 5000 ≤ t →
        (run c (catchBranch err w).1 [Ev.clock t, Ev.timer w.nextId]).retryTimeout = none ∧
        ∀ inv totem, w.isActive = true → w.inventory = some inv →
          holdsTotem c inv = false → findTotem c inv = some totem →
          (equipTotemListener c
              (run c (catchBranch err w).1 [Ev.clock t, Ev.timer w.nextId])).2
            = [Obs.equip totem]) := by
  refine ⟨?_, ?_, ?_⟩
  · simp only [catchBranch, errorThrottleMs]
    split_ifs with h1 h2 h3 h3 h3 <;> first | rfl | (exfalso; omega)
  · intro h1 h2 h3 es hes
    have hb : Backoff w.now (catchBranch err w).1 := by
      rw [catchBranch_opens err w h1 h2]
      refine ⟨Or.inr rfl, by simp [retryDelayMs], ?_⟩
      intro t ht hk
      rcases List.mem_append.1 ht with ht | ht
      · exact absurd hk (h3 t ht)
      · simp only [List.mem_singleton] at ht
        subst ht
        exact le_refl _
    have hr := run_backoff c w.now _ es hb hes
    exact ⟨hr.noop c, (hr.quiet c).1, (hr.quiet c).2⟩
  · intro h1 h2 h3 t ht
    have hf : (w.timers ++ [(⟨w.nextId, w.now + retryDelayMs, TimerKind.clearRetry⟩ : Timer)]).find?
        (fun x => x.id == w.nextId) = some ⟨w.nextId, w.now + retryDelayMs, TimerKind.clearRetry⟩ := by
      rw [List.find?_append]
      have : w.timers.find? (fun x => x.id == w.nextId) = none := by
        rw [List.find?_eq_none]
        intro x hx
        simpa using h3 x hx
      rw [this]
      simp [List.find?]
    have hd : w.now + retryDelayMs ≤ t := by simpa [retryDelayMs] using ht
    have hv : (run c (catchBranch err w).1 [Ev.clock t, Ev.timer w.nextId]).retryTimeout = none ∧
        (run c (catchBranch err w).1 [Ev.clock t, Ev.timer w.nextId]).isActive = w.isActive ∧
        (run c (catchBranch err w).1 [Ev.clock t, Ev.timer w.nextId]).inventory
          = w.inventory := by
      rw [catchBranch_opens err w h1 h2]
      simp only [run, step, fireTimer, hf]
      simp [hd, clearTimeout]
    refine ⟨hv.1, ?_⟩
    intro inv totem ha hi hh hfd
    rw [equipTotemListener_equip c _ inv totem (by rw [hv.2.1, ha]) hv.1
      (by rw [hv.2.2, hi]) hh hfd]

/-- C5 at concrete values: ten passes have failed at clock value 1000000 and
the eleventh fails at 1020000; the window stands over a tick at 1024999 and
the timer fires at 1025000. -/
theorem C5_backoff_witness :
    (1020000 : Int) - 1000000 > 10000 ∧
    (run exampleCfg exampleWorld (failedPasses 10 0 ++ [Ev.clock 1020000])).errorCount + 1 > 10 ∧
    equipTotemListener exampleCfg
        (run exampleCfg
          (catchBranch (JsErr.error "boom")
            (run exampleCfg exampleWorld (failedPasses 10 0 ++ [Ev.clock 1020000]))).1
          [Ev.tick, Ev.clock 1024999, Ev.tick])
      = (run exampleCfg
          (catchBranch (JsErr.error "boom")
            (run exampleCfg exampleWorld (failedPasses 10 0 ++ [Ev.clock 1020000]))).1
          [Ev.tick, Ev.clock 1024999, Ev.tick], []) ∧
    (equipTotemListener exampleCfg
        (run exampleCfg
          (catchBranch (JsErr.error "boom")
            (run exampleCfg exampleWorld (failedPasses 10 0 ++ [Ev.clock 1020000]))).1
          [Ev.clock 1025000, Ev.timer 10])).2 = [Obs.equip ⟨7, 10⟩] :=
  ⟨by decide, by decide,
    ((C5_backoff exampleCfg (JsErr.error "boom")
      (run exampleCfg exampleWorld (failedPasses 10 0 ++ [Ev.clock 1020000]))).2.1
      (by decide) (by decide) (by decide) [Ev.tick, Ev.clock 1024999, Ev.tick] (by decide)).1,
    ((C5_backoff exampleCfg (JsErr.error "boom")
      (run exampleCfg exampleWorld (failedPasses 10 0 ++ [Ev.clock 1020000]))).2.2
      (by decide) (by decide) (by decide) 1025000 (by decide)).2 exampleInv ⟨7, 10⟩
      (by decide) (by decide) (by decide) (by decide)⟩

/-- C5 as stated fails: eleven passes in a row fail at one clock value, from
a failure count of zero.  Only the first takes the reporting branch, so the
eleventh, which makes the count 11, sets no backoff timer, and the invocation
of the very next tick calls `bot.equip`. -/
theorem C5_counterexample :
    ((trace exampleCfg exampleWorld (failedPasses 11 0)).filter isFailure).length = 11 ∧
    reportTimes exampleCfg exampleWorld (failedPasses 11 0) = [1000000] ∧
    (run exampleCfg exampleWorld (failedPasses 11 0)).errorCount = 11 ∧
    (run exampleCfg exampleWorld (failedPasses 11 0)).retryTimeout = none ∧
    (run exampleCfg exampleWorld (failedPasses 11 0)).timers = [] ∧
    (step exampleCfg (run exampleCfg exampleWorld (failedPasses 11 0)) Ev.tick).2
      = [Obs.equip ⟨7, 10⟩] := by
  refine ⟨?_, ?_, ?_, ?_, ?_, ?_⟩ <;> decide

/-! ## Failures never escape -/

theorem listenerOutcome_eq (c : Cfg) (w : World) :
    listenerOutcome c w = Except.ok (equipTotemListener c w) := by
  unfold listenerOutcome equipTotemListener tryCatch tryStart
  split_ifs
  · rfl
  · rfl
  · cases w.inventory with
    | none => rfl
    | some inv =>
      simp only
      split_ifs
      · rfl
      · cases findTotem c inv <;> rfl

theorem resumeOutcome_eq (c : Cfg) (p : Pending) (r : Option JsErr) (w : World) :
    resumeOutcome c p r w = Except.ok (resume c p r w) := by
  obtain ⟨id, totem, stage⟩ := p
  cases stage <;> rcases r with _ | (m | _ | _) <;>
    simp only [resumeOutcome, resume, tryCatch, tryResume]
  split_ifs <;> rfl

theorem catchBranch_sameButTracker (err : JsErr) (w : World) :
    sameButTracker w (catchBranch err w).1 := by
  simp only [catchBranch, sameButTracker]
  split_ifs <;> simp

/-- C11: whatever the collaborators do (the inventory lookup throwing,
`bot.equip` or `bot.clickWindow` rejecting with an error, with a value
without a message, or with `undefined`), a call of `equipTotemListener` does
not throw and the promise it returned does not reject: the call and every
continuation end normally, in the world the model computes.  Whatever the
`try` block throws is received by the outer `catch`, which makes no call and
changes nothing but the failure tracker (`errorCount`, `lastErrorTime`,
`retryTimeout` and its timer). -/
theorem C11_failures_absorbed (c : Cfg) (w : World) :
    listenerOutcome c w = Except.ok (equipTotemListener c w) ∧
    (∀ (p : Pending) (r : Option JsErr),
        resumeOutcome c p r w = Except.ok (resume c p r w)) ∧
    (∀ err, w.isActive = true → w.retryTimeout = none → tryStart c w = Except.error err →
        equipTotemListener c w = catchBranch err w) ∧
    (∀ (p : Pending) (r : Option JsErr) (err : JsErr),
        tryResume c p r w = Except.error err → resume c p r w = catchBranch err w) ∧
    (∀ err, sameButTracker w (catchBranch err w).1 ∧
        ∃ reported, (catchBranch err w).2 = [Obs.caught err reported]) := by
  refine ⟨listenerOutcome_eq c w, fun p r => resumeOutcome_eq c p r w, ?_, ?_, ?_⟩
  · intro err ha hr ht
    have h := listenerOutcome_eq c w
    simp only [listenerOutcome, ha, hr, ht, tryCatch] at h
    simpa using h.symm
  · intro p r err ht
    have h := resumeOutcome_eq c p r w
    simp only [resumeOutcome, ht, tryCatch] at h
    simpa using h.symm
  · intro err
    exact ⟨catchBranch_sameButTracker err w, catchBranch_obs_ex err w⟩

/-- C11 at concrete values: the inventory lookup throws, and the first click
of the fallback rejects with `undefined`; both end in the outer `catch`. -/
theorem C11_failures_absorbed_witness :
    equipTotemListener exampleCfg { exampleWorld with inventory := none }
      = catchBranch typeError { exampleWorld with inventory := none } ∧
    resume exampleCfg ⟨0, ⟨7, 10⟩, Stage.pickUp⟩ (some JsErr.nullish) exampleWorld
      = catchBranch typeError exampleWorld :=
  ⟨(C11_failures_absorbed exampleCfg { exampleWorld with inventory := none }).2.2.1
      typeError rfl rfl rfl,
    (C11_failures_absorbed exampleCfg exampleWorld).2.2.2.1
      ⟨0, ⟨7, 10⟩, Stage.pickUp⟩ (some JsErr.nullish) typeError rfl⟩

/-! ## The capability gate -/

theorem versionComponent_eq (version : String) (i : Nat) :
    versionComponent (splitDots version.data) i = specComponent version i := by
  unfold versionComponent specComponent
  cases (splitDots version.data).get? i with
  | none =>
    have h : parseInt10 "undefined".data = none := by decide
    simp [h]
  | some s => rfl

/-! ## Completions after `stop()` -/

theorem catchBranch_setActive (err : JsErr) (w : World) (b : Bool) :
    catchBranch err { w with isActive := b } =
      ({ (catchBranch err w).1 with isActive := b }, (catchBranch err w).2) := by
  simp only [catchBranch]
  split_ifs <;> rfl

theorem resume_setActive (c : Cfg) (p : Pending) (r : Option JsErr) (w : World) (b : Bool) :
    resume c p r { w with isActive := b } =
      ({ (resume c p r w).1 with isActive := b }, (resume c p r w).2) := by
  obtain ⟨id, totem, stage⟩ := p
  cases stage <;> rcases r with _ | (m | _ | _) <;>
    simp only [resume, catchBranch_setActive]
  split_ifs <;> simp only [catchBranch_setActive]

theorem settle_setActive (c : Cfg) (id : Nat) (r : Option JsErr) (w : World) (b : Bool) :
    settle c id r { w with isActive := b } =
      ({ (settle c id r w).1 with isActive := b }, (settle c id r w).2) := by
  unfold settle
  simp only
  cases w.pending.find? (fun p => p.id == id) with
  | none => rfl
  | some p =>
    exact resume_setActive c p r { w with pending := w.pending.filter (fun q => q.id != id) } b

theorem settle_life (c : Cfg) (id : Nat) (r : Option JsErr) (w : World) :
    (settle c id r w).1.isActive = w.isActive ∧ (settle c id r w).1.listeners = w.listeners :=
  step_life c w (Ev.settle id r) (by simp) (by simp) (by simp)

theorem catchBranch_errorCount (err : JsErr) (w : World) :
    (catchBranch err w).1.errorCount = w.errorCount + 1 := by
  simp only [catchBranch]
  split_ifs <;> rfl

theorem start_clears (w : World) (h : w.isActive = false) :
    (start w).isActive = true ∧ (start w).errorCount = 0 ∧ (start w).retryTimeout = none := by
  cases hR : w.retryTimeout <;> simp [start, h, hR, clearTimeout]

/-- C13, as the code has it: `equipTotemListener` looks at `isActive` only
when it is called, so the completion of a transfer is handled after `stop()`
exactly as before it.  The world after the completion is the one an active
system would reach, with `isActive` still false and the listener still
detached: a resolved `bot.equip` resets the failure count to 0, and a
`bot.equip` rejected with another message than the offhand one runs the
outer `catch`, which adds 1 to the failure count (and on its reporting
branch records `lastErrorTime` and may set a backoff timer).  A later
`start()` resets the count and clears `retryTimeout`. -/
theorem C13_completion_after_stop (c : Cfg) (w : World) (id : Nat) (r : Option JsErr) :
    (∀ b : Bool, step c { w with isActive := b } (Ev.settle id r) =
        ({ (step c w (Ev.settle id r)).1 with isActive := b },
          (step c w (Ev.settle id r)).2)) ∧
    ((step c w (Ev.settle id r)).1.isActive = w.isActive ∧
      (step c w (Ev.settle id r)).1.listeners = w.listeners) ∧
    (∀ p : Pending, w.pending.find? (fun q => q.id == id) = some p → p.stage = Stage.equip →
        (step c w (Ev.settle id none)).1.errorCount = 0 ∧
        ∀ m, includes m "invalid destination: offhand" = false →
          step c w (Ev.settle id (some (JsErr.error m))) =
            catchBranch (JsErr.error m)
              { w with pending := w.pending.filter (fun q => q.id != id) } ∧
          (step c w (Ev.settle id (some (JsErr.error m)))).1.errorCount
            = w.errorCount + 1) ∧
    (w.isActive = false →
        (start (step c w (Ev.settle id r)).1).errorCount = 0 ∧
        (start (step c w (Ev.settle id r)).1).retryTimeout = none) := by
  refine ⟨fun b => settle_setActive c id r w b, settle_life c id r w, ?_, ?_⟩
  · intro p hp hs
    constructor
    · simp only [step]
      rw [settle_found c id _ w p hp]
      simp [resume, hs]
    · intro m hm
      have e : step c w (Ev.settle id (some (JsErr.error m))) =
          catchBranch (JsErr.error m)
            { w with pending := w.pending.filter (fun q => q.id != id) } := by
        simp only [step]
        rw [settle_found c id _ w p hp]
        simp only [resume, hs, hm, Bool.false_eq_true, if_false]
      refine ⟨e, ?_⟩
      rw [e, catchBranch_errorCount]
  · intro hi
    have h := start_clears (step c w (Ev.settle id r)).1
      ((settle_life c id r w).1.trans hi)
    exact ⟨h.2.1, h.2.2⟩

/-- C13 at concrete values: three passes failed, a fourth is suspended, the
plugin is stopped, and the pending `bot.equip` resolves, or rejects with
`boom`. -/
theorem C13_completion_after_stop_witness :
    (step exampleCfg (run exampleCfg exampleWorld (failedPasses 3 0 ++ [Ev.tick, Ev.stop]))
        (Ev.settle 3 none)).1.errorCount = 0 ∧
    (step exampleCfg (run exampleCfg exampleWorld (failedPasses 3 0 ++ [Ev.tick, Ev.stop]))
        (Ev.settle 3 (some (JsErr.error "boom")))).1.errorCount
      = (run exampleCfg exampleWorld (failedPasses 3 0 ++ [Ev.tick, Ev.stop])).errorCount + 1 ∧
    (start (step exampleCfg
        (run exampleCfg exampleWorld (failedPasses 3 0 ++ [Ev.tick, Ev.stop]))
        (Ev.settle 3 (some (JsErr.error "boom")))).1).errorCount = 0 :=
  ⟨((C13_completion_after_stop exampleCfg
        (run exampleCfg exampleWorld (failedPasses 3 0 ++ [Ev.tick, Ev.stop])) 3 none).2.2.1
      ⟨3, ⟨7, 10⟩, Stage.equip⟩ (by decide) rfl).1,
    (((C13_completion_after_stop exampleCfg
        (run exampleCfg exampleWorld (failedPasses 3 0 ++ [Ev.tick, Ev.stop])) 3 none).2.2.1
      ⟨3, ⟨7, 10⟩, Stage.equip⟩ (by decide) rfl).2 "boom" (by decide)).2,
    ((C13_completion_after_stop exampleCfg
        (run exampleCfg exampleWorld (failedPasses 3 0 ++ [Ev.tick, Ev.stop])) 3
        (some (JsErr.error "boom"))).2.2.2 (by decide)).1⟩

/-- C13 as stated fails: ten passes have failed, an eleventh is suspended at
its `bot.equip`, the clock moves on by 20 s and `stop()` is called.  When the
`bot.equip` then rejects, the failure count goes from 10 to 11,
`lastErrorTime` from 1000000 to 1020000, and a backoff timer is created
while the system is inactive.  When instead, after three failures, the
pending `bot.equip` resolves after `stop()`, the count goes from 3 to 0. -/
theorem C13_counterexample :
    (run exampleCfg exampleWorld
        (failedPasses 10 0 ++ [Ev.tick, Ev.clock 1020000, Ev.stop])).isActive = false ∧
    (run exampleCfg exampleWorld
        (failedPasses 10 0 ++ [Ev.tick, Ev.clock 1020000, Ev.stop])).errorCount = 10 ∧
    (run exampleCfg exampleWorld
        (failedPasses 10 0 ++ [Ev.tick, Ev.clock 1020000, Ev.stop])).lastErrorTime = 1000000 ∧
    (run exampleCfg exampleWorld
        (failedPasses 10 0 ++ [Ev.tick, Ev.clock 1020000, Ev.stop])).retryTimeout = none ∧
    (run exampleCfg exampleWorld
        (failedPasses 10 0 ++ [Ev.tick, Ev.clock 1020000, Ev.stop,
          Ev.settle 10 (some (JsErr.error "boom"))])).isActive = false ∧
    (run exampleCfg exampleWorld
        (failedPasses 10 0 ++ [Ev.tick, Ev.clock 1020000, Ev.stop,
          Ev.settle 10 (some (JsErr.error "boom"))])).errorCount = 11 ∧
    (run exampleCfg exampleWorld
        (failedPasses 10 0 ++ [Ev.tick, Ev.clock 1020000, Ev.stop,
          Ev.settle 10 (some (JsErr.error "boom"))])).lastErrorTime = 1020000 ∧
    (run exampleCfg exampleWorld
        (failedPasses 10 0 ++ [Ev.tick, Ev.clock 1020000, Ev.stop,
          Ev.settle 10 (some (JsErr.error "boom"))])).retryTimeout = some 11 ∧
    (run exampleCfg exampleWorld
        (failedPasses 10 0 ++ [Ev.tick, Ev.clock 1020000, Ev.stop,
          Ev.settle 10 (some (JsErr.error "boom"))])).timers
      = [⟨11, 1025000, TimerKind.clearRetry⟩] ∧
    (run exampleCfg exampleWorld (failedPasses 3 0 ++ [Ev.tick, Ev.stop])).errorCount = 3 ∧
    (run exampleCfg exampleWorld
        (failedPasses 3 0 ++ [Ev.tick, Ev.stop, Ev.settle 3 none])).errorCount = 0 := by
  refine ⟨?_, ?_, ?_, ?_, ?_, ?_, ?_, ?_, ?_, ?_, ?_⟩ <;> decide

/-! ## Guards, lifecycle algebra and invariants -/

/-- C14: when the system is inactive or `retryTimeout` holds a backoff timer,
an invocation of `equipTotemListener` is a no-op whatever the inventory is,
a lookup that would throw included: it makes no call and returns the world
as it is, so the failure count, `lastErrorTime` and `retryTimeout` are
unchanged. -/
theorem C14_guard_noop (c : Cfg) (w : World)
    (h : w.isActive = false ∨ w.retryTimeout.isSome = true) :
    (∀ inv : Option Inventory,
        equipTotemListener c { w with inventory := inv } = ({ w with inventory := inv }, [])) ∧
    equipTotemListener c w = (w, []) ∧
    (equipTotemListener c w).1.errorCount = w.errorCount ∧
    (equipTotemListener c w).1.lastErrorTime = w.lastErrorTime ∧
    (equipTotemListener c w).1.retryTimeout = w.retryTimeout ∧
    (equipTotemListener c w).1.timers = w.timers := by
  have h1 : equipTotemListener c w = (w, []) :=
    equipTotemListener_noop c w (h.elim Or.inl (fun h => Or.inr (Or.inl h)))
  refine ⟨?_, h1, by rw [h1], by rw [h1], by rw [h1], by rw [h1]⟩
  intro inv
  exact equipTotemListener_noop c _ (h.elim Or.inl (fun h => Or.inr (Or.inl h)))

/-- C14 at concrete values: a stopped plugin whose inventory lookup would
throw, and a plugin in a backoff window. -/
theorem C14_guard_noop_witness :
    equipTotemListener exampleCfg { stop exampleWorld with inventory := none }
      = ({ stop exampleWorld with inventory := none }, []) ∧
    equipTotemListener exampleCfg { exampleWorld with retryTimeout := some 0 }
      = ({ exampleWorld with retryTimeout := some 0 }, []) :=
  ⟨(C14_guard_noop exampleCfg (stop exampleWorld) (Or.inl (by decide))).1 none,
    (C14_guard_noop exampleCfg { exampleWorld with retryTimeout := some 0 }
      (Or.inr (by decide))).2.1⟩

theorem stop_of_inactive (w : World) (h : w.isActive = false) : stop w = w := by
  simp [stop, h]

theorem start_of_active (w : World) (h : w.isActive = true) : start w = w := by
  simp [start, h]

theorem start_active (w : World) : (start w).isActive = true := by
  cases hA : w.isActive <;> cases hR : w.retryTimeout <;> simp [start, hA, hR, clearTimeout]

/-- C16: `stop` and `start` are idempotent, `unload` is `stop`, `stop` leaves
an inactive world as it is and `start` an active one, state variables and
registrations alike. -/
theorem C16_lifecycle_idempotent (w : World) :
    stop (stop w) = stop w ∧ start (start w) = start w ∧ unload w = stop w ∧
    (w.isActive = false → stop w = w) ∧ (w.isActive = true → start w = w) :=
  ⟨stop_of_inactive _ (stop_inactive w), start_of_active _ (start_active w), rfl,
    stop_of_inactive w, start_of_active w⟩

/-- C16 at concrete values: a stopped and a freshly loaded plugin. -/
theorem C16_lifecycle_idempotent_witness :
    stop (stop exampleWorld) = stop exampleWorld ∧ start exampleWorld = exampleWorld :=
  ⟨(C16_lifecycle_idempotent (stop exampleWorld)).2.2.2.1 (by decide),
    (C16_lifecycle_idempotent exampleWorld).2.2.2.2 (by decide)⟩

theorem step_cooldown_range (c : Cfg) (w : World) (e : Ev)
    (h : 0 ≤ w.totemPopCooldown ∧ w.totemPopCooldown ≤ 20) :
    0 ≤ (step c w e).1.totemPopCooldown ∧ (step c w e).1.totemPopCooldown ≤ 20 := by
  have h1 := step_cooldown c w e
  have h2 := cooldownTick_cooldown w
  split_ifs at h1 h2 <;> omega

theorem run_cooldown_range (c : Cfg) (w : World) (es : List Ev)
    (h : 0 ≤ w.totemPopCooldown ∧ w.totemPopCooldown ≤ 20) :
    0 ≤ (run c w es).totemPopCooldown ∧ (run c w es).totemPopCooldown ≤ 20 := by
  induction es generalizing w with
  | nil => exact h
  | cons e es ih => exact ih _ (step_cooldown_range c w e h)

/-- C17: in every reachable world the cooldown counter is an integer from 0
to 20.  A physics tick lowers it by exactly 1 when it is positive and leaves
it at 0 otherwise; any other event leaves it as it is unless it emits
`totem_pop`, which sets it to 20. -/
theorem C17_cooldown_invariant (c : Cfg) (w : World) (hr : Reachable c w) :
    (0 ≤ w.totemPopCooldown ∧ w.totemPopCooldown ≤ 20) ∧
    ((step c w Ev.tick).1.totemPopCooldown =
      if w.totemPopCooldown > 0 then w.totemPopCooldown - 1 else 0) ∧
    (Obs.totemPop ∉ (step c w Ev.tick).2) ∧
    (∀ e : Ev, e ≠ Ev.tick →
      (step c w e).1.totemPopCooldown =
        if Obs.totemPop ∈ (step c w e).2 then 20 else w.totemPopCooldown) := by
  have hrange : 0 ≤ w.totemPopCooldown ∧ w.totemPopCooldown ≤ 20 := by
    obtain ⟨health, inv, now, es, rfl⟩ := hr
    exact run_cooldown_range c _ es (by simp [init])
  have hno : Obs.totemPop ∉ (step c w Ev.tick).2 :=
    (invokeTimes_frame c w.listeners (cooldownTick w)).2.2
  refine ⟨hrange, ?_, hno, ?_⟩
  · have h1 := step_cooldown c w Ev.tick
    have h2 := cooldownTick_cooldown w
    simp only [hno, if_false, if_true] at h1
    rw [h1, h2]
    split_ifs <;> omega
  · intro e he
    have h1 := step_cooldown c w e
    simp only [he, if_false] at h1
    exact h1

/-- C17 at concrete values: the world after an emission and three ticks. -/
theorem C17_cooldown_invariant_witness :
    (0 ≤ (run exampleCfg exampleWorld [Ev.status 1 35, Ev.tick, Ev.tick, Ev.tick]).totemPopCooldown ∧
      (run exampleCfg exampleWorld [Ev.status 1 35, Ev.tick, Ev.tick, Ev.tick]).totemPopCooldown
        ≤ 20) ∧
    (step exampleCfg (run exampleCfg exampleWorld [Ev.status 1 35, Ev.tick, Ev.tick, Ev.tick])
        Ev.tick).1.totemPopCooldown =
      if (run exampleCfg exampleWorld
          [Ev.status 1 35, Ev.tick, Ev.tick, Ev.tick]).totemPopCooldown > 0
      then (run exampleCfg exampleWorld
          [Ev.status 1 35, Ev.tick, Ev.tick, Ev.tick]).totemPopCooldown - 1
      else 0 :=
  ⟨(C17_cooldown_invariant exampleCfg
      (run exampleCfg exampleWorld [Ev.status 1 35, Ev.tick, Ev.tick, Ev.tick])
      ⟨none, some exampleInv, 1000000, [Ev.status 1 35, Ev.tick, Ev.tick, Ev.tick], rfl⟩).1,
    (C17_cooldown_invariant exampleCfg
      (run exampleCfg exampleWorld [Ev.status 1 35, Ev.tick, Ev.tick, Ev.tick])
      ⟨none, some exampleInv, 1000000, [Ev.status 1 35, Ev.tick, Ev.tick, Ev.tick], rfl⟩).2.1⟩

/-- C18: in every reachable world, and so after any sequence of `start()`,
`stop()` and `unload()` calls, `equipTotemListener` is registered on
`physicsTick` once when the system is active and not at all when it is
inactive; a tick of an active system runs the cooldown listener and then one
invocation of `equipTotemListener`, a tick of an inactive system only the
cooldown listener. -/
theorem C18_attachment (c : Cfg) (w : World) (hr : Reachable c w) :
    (w.listeners = if w.isActive then 1 else 0) ∧
    (w.isActive = true → step c w Ev.tick = equipTotemListener c (cooldownTick w)) ∧
    (w.isActive = false → step c w Ev.tick = (cooldownTick w, [])) := by
  have ha : w.listeners = if w.isActive then 1 else 0 := reachable_attached c w hr
  refine ⟨ha, ?_, ?_⟩
  · intro h
    simp only [h, if_true] at ha
    simp [step, ha, invokeTimes]
  · intro h
    simp only [h] at ha
    simp [step, ha, invokeTimes]

/-- C18 at concrete values: the plugin after `stop`, `start`, `start`,
`unload`, `stop`, `start`. -/
theorem C18_attachment_witness :
    (run exampleCfg exampleWorld
        [Ev.stop, Ev.start, Ev.start, Ev.unload, Ev.stop, Ev.start]).listeners = 1 ∧
    (run exampleCfg exampleWorld [Ev.stop, Ev.start, Ev.start, Ev.unload, Ev.stop]).listeners
      = 0 ∧
    step exampleCfg (run exampleCfg exampleWorld [Ev.unload]) Ev.tick
      = (cooldownTick (run exampleCfg exampleWorld [Ev.unload]), []) :=
  ⟨(C18_attachment exampleCfg
      (run exampleCfg exampleWorld [Ev.stop, Ev.start, Ev.start, Ev.unload, Ev.stop, Ev.start])
      ⟨none, some exampleInv, 1000000,
        [Ev.stop, Ev.start, Ev.start, Ev.unload, Ev.stop, Ev.start], rfl⟩).1,
    (C18_attachment exampleCfg
      (run exampleCfg exampleWorld [Ev.stop, Ev.start, Ev.start, Ev.unload, Ev.stop])
      ⟨none, some exampleInv, 1000000,
        [Ev.stop, Ev.start, Ev.start, Ev.unload, Ev.stop], rfl⟩).1,
    (C18_attachment exampleCfg (run exampleCfg exampleWorld [Ev.unload])
      ⟨none, some exampleInv, 1000000, [Ev.unload], rfl⟩).2.2 (by decide)⟩

/-! ## Detection and the lifecycle -/

/-- Lifecycle calls emit nothing and leave the detector state alone. -/
theorem step_lifecycle (c : Cfg) (w : World) (e : Ev) (h : isLifecycle e = true) :
    (step c w e).2 = [] ∧ (step c w e).1.totemPopCooldown = w.totemPopCooldown ∧
      (step c w e).1.lastHealth = w.lastHealth := by
  cases e <;> simp [isLifecycle] at h
  · exact ⟨rfl, stop_frame w⟩
  · exact ⟨rfl, start_frame w⟩
  · exact ⟨rfl, stop_frame w⟩

/-- Whether an event emits, and the detector state after it, depend on the
detector state only. -/
theorem step_detector (c : Cfg) (w v : World) (e : Ev)
    (h1 : w.totemPopCooldown = v.totemPopCooldown) (h2 : w.lastHealth = v.lastHealth) :
    (Obs.totemPop ∈ (step c w e).2 ↔ Obs.totemPop ∈ (step c v e).2) ∧
      (step c w e).1.totemPopCooldown = (step c v e).1.totemPopCooldown ∧
      (step c w e).1.lastHealth = (step c v e).1.lastHealth := by
  have hp : Obs.totemPop ∈ (step c w e).2 ↔ Obs.totemPop ∈ (step c v e).2 := by
    cases e with
    | health x =>
      simp only [step, onHealth_totemPop_iff, h1, h2]
    | status a b =>
      simp only [step, onEntityStatus_totemPop_iff, h1]
    | tick =>
      exact iff_of_false (invokeTimes_frame c _ _).2.2 (invokeTimes_frame c _ _).2.2
    | collect a => simp [step]
    | timer id => exact iff_of_false (fireTimer_frame c id w).2.2 (fireTimer_frame c id v).2.2
    | settle id r =>
      exact iff_of_false (settle_frame c id r w).2.2 (settle_frame c id r v).2.2
    | stop => simp [step]
    | start => simp [step]
    | unload => simp [step]
    | inventory inv => simp [step]
    | clock t => simp [step]
  refine ⟨hp, ?_, ?_⟩
  · rw [step_cooldown c w e, step_cooldown c v e, cooldownTick_cooldown,
      cooldownTick_cooldown, h1]
    simp only [hp]
  · rw [step_lastHealth, step_lastHealth, h2]

theorem emissions_detector (c : Cfg) (w v : World) (es : List Ev)
    (h1 : w.totemPopCooldown = v.totemPopCooldown) (h2 : w.lastHealth = v.lastHealth) :
    emissions c w es = emissions c v (es.filter (fun e => !isLifecycle e)) := by
  induction es generalizing w v with
  | nil => rfl
  | cons e es ih =>
    by_cases hl : isLifecycle e = true
    · obtain ⟨_, a, b⟩ := step_lifecycle c w e hl
      simp only [emissions, hl, if_true, List.filter, Bool.not_true]
      exact ih _ _ (a.trans h1) (b.trans h2)
    · obtain ⟨p, a, b⟩ := step_detector c w v e h1 h2
      simp only [Bool.not_eq_true] at hl
      simp only [emissions, hl, List.filter, Bool.not_false, Bool.false_eq_true, if_false]
      rw [ih _ _ a b, decide_eq_decide.2 p]

/-- C15: detection does not depend on the lifecycle.  `stop()`, `start()` and
`unload()` emit nothing and leave the cooldown counter and the recorded
health as they are; and along every sequence of events, each event that is
not a lifecycle call emits `totem_pop` exactly when it does along the
sequence without its lifecycle calls. -/
theorem C15_detection_independent (c : Cfg) (w : World) :
    ((stop w).totemPopCooldown = w.totemPopCooldown ∧ (stop w).lastHealth = w.lastHealth) ∧
    ((start w).totemPopCooldown = w.totemPopCooldown ∧ (start w).lastHealth = w.lastHealth) ∧
    ((unload w).totemPopCooldown = w.totemPopCooldown ∧
      (unload w).lastHealth = w.lastHealth) ∧
    ((step c w Ev.stop).2 = [] ∧ (step c w Ev.start).2 = [] ∧ (step c w Ev.unload).2 = []) ∧
    (∀ es : List Ev,
      emissions c w es = emissions c w (es.filter (fun e => !isLifecycle e))) :=
  ⟨stop_frame w, start_frame w, stop_frame w, ⟨rfl, rfl, rfl⟩,
    fun es => emissions_detector c w w es rfl rfl⟩

/-! ## The offhand failure without `bot.clickWindow` -/

theorem equipTotemListener_idle (c : Cfg) (w : World) (h : Idle w) :
    Idle (equipTotemListener c w).1 ∧ ∀ o ∈ (equipTotemListener c w).2, isFailure o = false := by
  obtain ⟨h1, h2, h3, h4⟩ := h
  by_cases ha : w.isActive = true
  swap
  · rw [equipTotemListener_noop c w (Or.inl (by simpa using ha))]
    exact ⟨⟨h1, h2, h3, h4⟩, by simp⟩
  cases hi : w.inventory with
  | none => exact absurd hi h3
  | some inv =>
    by_cases hh : holdsTotem c inv = true
    · rw [equipTotemListener_noop c w (Or.inr (Or.inr ⟨inv, hi, hh⟩))]
      exact ⟨⟨h1, h2, h3, h4⟩, by simp⟩
    · cases hf : findTotem c inv with
      | none =>
        rw [equipTotemListener_none c w inv ha h2 hi (by simpa using hh) hf]
        exact ⟨⟨rfl, h2, h3, h4⟩, by simp⟩
      | some totem =>
        rw [equipTotemListener_equip c w inv totem ha h2 hi (by simpa using hh) hf]
        refine ⟨⟨h1, h2, h3, ?_⟩, by simp [isFailure]⟩
        intro p hp
        rcases List.mem_append.1 hp with hp | hp
        · exact h4 p hp
        · simp only [List.mem_singleton] at hp
          rw [hp]

theorem invokeTimes_idle (c : Cfg) (n : Nat) (w : World) (h : Idle w) :
    Idle (invokeTimes c n w).1 ∧ ∀ o ∈ (invokeTimes c n w).2, isFailure o = false := by
  induction n generalizing w with
  | zero => exact ⟨h, by simp [invokeTimes]⟩
  | succ n ih =>
    obtain ⟨a, b⟩ := equipTotemListener_idle c w h
    obtain ⟨a2, b2⟩ := ih _ a
    refine ⟨a2, ?_⟩
    intro o ho
    simp only [invokeTimes, List.mem_append] at ho
    exact ho.elim (b o) (b2 o)

theorem resume_idle (c : Cfg) (hc : c.hasClickWindow = false) (p : Pending)
    (r : Option JsErr) (w : World) (hp : p.stage = Stage.equip)
    (hr : offhandOnly (Ev.settle p.id r) = true) :
    resume c p r w = ({ w with errorCount := 0 }, []) := by
  unfold resume
  rcases r with _ | (m | _ | _)
  · simp [hp]
  · simp only [offhandOnly] at hr
    simp [hp, hr, hc]
  · simp [offhandOnly] at hr
  · simp [offhandOnly] at hr

/-- An event that keeps the tracker idle keeps it idle. -/
theorem step_idle (c : Cfg) (hc : c.hasClickWindow = false) (w : World) (e : Ev)
    (h : Idle w) (he : offhandOnly e = true) :
    Idle (step c w e).1 ∧ ∀ o ∈ (step c w e).2, isFailure o = false := by
  cases e with
  | tick =>
    have hct : Idle (cooldownTick w) := by
      unfold cooldownTick
      split_ifs
      · exact h
      · exact h
    exact invokeTimes_idle c _ _ hct
  | health x =>
    simp only [step, onHealth, checkTotemActivation, emitTotemPop]
    split_ifs <;> exact ⟨h, by simp [isFailure]⟩
  | status a b =>
    simp only [step, onEntityStatus, emitTotemPop]
    split_ifs <;> exact ⟨h, by simp [isFailure]⟩
  | collect a =>
    simp only [step, onPlayerCollect]
    split_ifs <;> exact ⟨h, by simp⟩
  | timer id =>
    simp only [step, fireTimer]
    split
    · exact ⟨h, by simp⟩
    · split_ifs
      · split
        · exact ⟨⟨h.1, rfl, h.2.2.1, h.2.2.2⟩, by simp⟩
        · exact equipTotemListener_idle c (clearTimeout id w) h
      · exact ⟨h, by simp⟩
  | settle id r =>
    simp only [step, settle]
    split
    · exact ⟨h, by simp⟩
    · rename_i p hp
      have hid : p.id = id := by simpa using List.find?_some hp
      have hst : p.stage = Stage.equip := h.2.2.2 p (List.mem_of_find?_eq_some hp)
      have hw : Idle { w with pending := w.pending.filter (fun q => q.id != id) } :=
        ⟨h.1, h.2.1, h.2.2.1, fun q hq => h.2.2.2 q (List.mem_filter.1 hq).1⟩
      rw [resume_idle c hc p r _ hst (by rw [hid]; exact he)]
      exact ⟨⟨rfl, hw.2.1, hw.2.2.1, hw.2.2.2⟩, by simp⟩
  | stop =>
    obtain ⟨h1, h2, h3, h4⟩ := h
    refine ⟨?_, by simp [step]⟩
    cases hA : w.isActive <;> simp [step, stop, hA, h2, Idle, h1, h3] <;> exact h4
  | start =>
    obtain ⟨h1, h2, h3, h4⟩ := h
    refine ⟨?_, by simp [step]⟩
    cases hA : w.isActive <;> simp [step, start, hA, h2, Idle, h1, h3] <;> exact h4
  | unload =>
    obtain ⟨h1, h2, h3, h4⟩ := h
    refine ⟨?_, by simp [step]⟩
    cases hA : w.isActive <;> simp [step, unload, stop, hA, h2, Idle, h1, h3] <;> exact h4
  | inventory inv =>
    cases inv with
    | none => simp [offhandOnly] at he
    | some i => exact ⟨⟨h.1, h.2.1, by simp [step], h.2.2.2⟩, by simp [step]⟩
  | clock t => exact ⟨h, by simp [step]⟩

theorem run_idle (c : Cfg) (hc : c.hasClickWindow = false) (w : World) (es : List Ev)
    (h : Idle w) (hes : ∀ e ∈ es, offhandOnly e = true) :
    Idle (run c w es) ∧ ∀ o ∈ trace c w es, isFailure o = false := by
  induction es generalizing w with
  | nil => exact ⟨h, by simp [trace]⟩
  | cons e es ih =>
    obtain ⟨a, b⟩ := step_idle c hc w e h (hes e (by simp))
    obtain ⟨a2, b2⟩ := ih _ a (fun e2 h2 => hes e2 (by simp [h2]))
    refine ⟨a2, ?_⟩
    intro o ho
    simp only [trace, List.mem_append] at ho
    exact ho.elim (b o) (b2 o)

/-- C19: let `bot.clickWindow` be missing.  When the `bot.equip` of a
suspended invocation rejects with a message that contains
`invalid destination: offhand`, the pass ends exactly as if `bot.equip` had
resolved: no call (so no click), no failure received by the outer `catch`,
the failure count reset to 0, and `lastErrorTime`, `retryTimeout` and the
timers as they were.  So along every sequence of events in which `bot.equip`
only ever resolves or rejects in this way and the inventory stays readable,
from a world without a failure on record, no failure is ever recorded, the
failure count stays 0 and no backoff timer is ever set. -/
theorem C19_offhand_without_click (c : Cfg) (hc : c.hasClickWindow = false) :
    (∀ (w : World) (id : Nat) (p : Pending) (m : String),
        w.pending.find? (fun q => q.id == id) = some p → p.stage = Stage.equip →
        includes m "invalid destination: offhand" = true →
        step c w (Ev.settle id (some (JsErr.error m))) = step c w (Ev.settle id none) ∧
        (step c w (Ev.settle id (some (JsErr.error m)))).2 = [] ∧
        (step c w (Ev.settle id (some (JsErr.error m)))).1.errorCount = 0 ∧
        (step c w (Ev.settle id (some (JsErr.error m)))).1.lastErrorTime = w.lastErrorTime ∧
        (step c w (Ev.settle id (some (JsErr.error m)))).1.retryTimeout = w.retryTimeout ∧
        (step c w (Ev.settle id (some (JsErr.error m)))).1.timers = w.timers) ∧
    (∀ (w : World) (es : List Ev), Idle w → (∀ e ∈ es, offhandOnly e = true) →
        (run c w es).errorCount = 0 ∧ (run c w es).retryTimeout = none ∧
        ∀ o ∈ trace c w es, isFailure o = false) := by
  constructor
  · intro w id p m hp hs hm
    have e1 : step c w (Ev.settle id (some (JsErr.error m))) =
        ({ w with pending := w.pending.filter (fun q => q.id != id), errorCount := 0 }, []) := by
      simp only [step]
      rw [settle_found c id _ w p hp]
      simp [resume, hs, hm, hc]
    have e2 : step c w (Ev.settle id none) =
        ({ w with pending := w.pending.filter (fun q => q.id != id), errorCount := 0 }, []) := by
      simp only [step]
      rw [settle_found c id _ w p hp]
      simp [resume, hs]
    rw [e1, e2]
    simp
  · intro w es hw hes
    obtain ⟨a, b⟩ := run_idle c hc w es hw hes
    exact ⟨a.1, a.2.1, b⟩

/-- C19 at concrete values: without `bot.clickWindow`, two passes in a row
have their `bot.equip` rejected with the offhand message. -/
theorem C19_offhand_without_click_witness :
    (step ⟨7, 1, false⟩ (run ⟨7, 1, false⟩ exampleWorld [Ev.tick])
        (Ev.settle 0 (some (JsErr.error "invalid destination: offhand")))).2 = [] ∧
    (run ⟨7, 1, false⟩ exampleWorld
        [Ev.tick, Ev.settle 0 (some (JsErr.error "invalid destination: offhand")),
          Ev.tick, Ev.settle 1 (some (JsErr.error "invalid destination: offhand"))]).errorCount
      = 0 ∧
    (run ⟨7, 1, false⟩ exampleWorld
        [Ev.tick, Ev.settle 0 (some (JsErr.error "invalid destination: offhand")),
          Ev.tick, Ev.settle 1 (some (JsErr.error "invalid destination: offhand"))]).retryTimeout
      = none :=
  ⟨((C19_offhand_without_click ⟨7, 1, false⟩ rfl).1
      (run ⟨7, 1, false⟩ exampleWorld [Ev.tick]) 0 ⟨0, ⟨7, 10⟩, Stage.equip⟩
      "invalid destination: offhand" (by decide) rfl (by decide)).2.1,
    ((C19_offhand_without_click ⟨7, 1, false⟩ rfl).2 exampleWorld
      [Ev.tick, Ev.settle 0 (some (JsErr.error "invalid destination: offhand")),
        Ev.tick, Ev.settle 1 (some (JsErr.error "invalid destination: offhand"))]
      ⟨rfl, rfl, by decide, by decide⟩ (by decide)).1,
    ((C19_offhand_without_click ⟨7, 1, false⟩ rfl).2 exampleWorld
      [Ev.tick, Ev.settle 0 (some (JsErr.error "invalid destination: offhand")),
        Ev.tick, Ev.settle 1 (some (JsErr.error "invalid destination: offhand"))]
      ⟨rfl, rfl, by decide, by decide⟩ (by decide)).2.1⟩

/-! ## Decimal numerals -/

/-- What `parseInt` needs to know about a decimal digit character. -/
theorem digitChar_facts (m : Nat) (hm : m < 10) :
    digitValue (Nat.digitChar m) = some m ∧ isStrWhiteSpace (Nat.digitChar m) = false ∧
      Nat.digitChar m ≠ '-' ∧ Nat.digitChar m ≠ '+' ∧ Nat.digitChar m ≠ '.' := by
  interval_cases m <;> decide

/-- The numeral of `n` followed by `ds`: the digits are put in front of
`ds`, the first of them is a digit, and reading them gives `n` back. -/
theorem toDigitsCore_spec (fuel : Nat) :
    ∀ (n : Nat) (ds : List Char), n < fuel →
      ∃ (m : Nat) (tl : List Char), m < 10 ∧
        Nat.toDigitsCore 10 fuel n ds = Nat.digitChar m :: tl ++ ds ∧
        (∀ ch ∈ Nat.digitChar m :: tl, ch ≠ '.') ∧
        ∃ k, ∀ acc us, readDigits acc (Nat.digitChar m :: tl ++ us)
          = readDigits (acc * 10 ^ k + n) us := by
  induction fuel with
  | zero => intro n ds h; omega
  | succ fuel ih =>
    intro n ds hn
    simp only [Nat.toDigitsCore]
    by_cases h0 : n / 10 = 0
    · have hlt : n < 10 := by omega
      have hmod : n % 10 = n := Nat.mod_eq_of_lt hlt
      refine ⟨n, [], hlt, by simp [h0, hmod], ?_, 1, ?_⟩
      · intro ch hch
        simp only [List.mem_singleton] at hch
        rw [hch]
        exact (digitChar_facts n hlt).2.2.2.2
      · intro acc us
        simp only [List.nil_append, List.cons_append, readDigits, (digitChar_facts n hlt).1]
        congr 1
        omega
    · obtain ⟨m, tl, hm, he, hd, k, hk⟩ :=
        ih (n / 10) (Nat.digitChar (n % 10) :: ds) (by omega)
      have hlt : n % 10 < 10 := Nat.mod_lt _ (by decide)
      refine ⟨m, tl ++ [Nat.digitChar (n % 10)], hm, ?_, ?_, k + 1, ?_⟩
      · simp only [h0, if_false, he]
        simp
      · intro ch hch
        simp only [List.mem_cons, List.mem_append, List.mem_singleton, List.not_mem_nil, or_false] at hch
        rcases hch with h | h | h
        · exact hd ch (by simp [h])
        · exact hd ch (by simp [h])
        · rw [h]
          exact (digitChar_facts _ hlt).2.2.2.2
      · intro acc us
        have e : Nat.digitChar m :: (tl ++ [Nat.digitChar (n % 10)]) ++ us
            = Nat.digitChar m :: tl ++ (Nat.digitChar (n % 10) :: us) := by simp
        rw [e, hk acc (Nat.digitChar (n % 10) :: us)]
        simp only [readDigits, (digitChar_facts _ hlt).1]
        congr 1
        rw [pow_succ]
        have := Nat.div_add_mod n 10
        nlinarith [Nat.div_add_mod n 10]

theorem parseInt10_digit (m : Nat) (hm : m < 10) (t : List Char) :
    parseInt10 (Nat.digitChar m :: t) = some ((readDigits 0 (Nat.digitChar m :: t) : Nat) : Int) := by
  interval_cases m <;>
    simp [parseInt10, Nat.digitChar, List.dropWhile, isStrWhiteSpace, digitValue]

theorem readDigits_stop (x : Nat) (us : List Char)
    (h : ∀ ch ∈ us.head?, digitValue ch = none) : readDigits x us = x := by
  cases us with
  | nil => rfl
  | cons ch tl =>
    have := h ch (by simp)
    simp [readDigits, this]

/-- The numeral of `n`, as `toString` writes it, starts with a digit, holds
no dot, and is read back as `n` by `parseInt`, whatever follows it that does
not start with a digit. -/
theorem parseInt10_repr (n : Nat) (us : List Char)
    (h : ∀ ch ∈ us.head?, digitValue ch = none) :
    parseInt10 ((Nat.repr n).data ++ us) = some (n : Int) ∧
      ∀ ch ∈ (Nat.repr n).data, ch ≠ '.' := by
  obtain ⟨m, tl, hm, he, hd, k, hk⟩ := toDigitsCore_spec (n + 1) n [] (by omega)
  have hr : (Nat.repr n).data = Nat.digitChar m :: tl := by
    show Nat.toDigitsCore 10 (n + 1) n [] = _
    rw [he]
    simp
  rw [hr]
  refine ⟨?_, hd⟩
  rw [List.cons_append, parseInt10_digit m hm, ← List.cons_append, hk 0 us,
    readDigits_stop _ us h]
  simp

theorem splitDots_dot (p t : List Char) (hp : ∀ ch ∈ p, ch ≠ '.') :
    splitDots (p ++ '.' :: t) = p :: splitDots t := by
  induction p with
  | nil => simp [splitDots]
  | cons ch p ih =>
    have h1 : ch ≠ '.' := hp ch (by simp)
    have h2 := ih (fun c hc => hp c (by simp [hc]))
    simp [splitDots, h1, h2]

theorem splitDots_head (s : List Char) :
    ∃ xs, splitDots s = s.takeWhile (fun c => c != '.') :: xs := by
  induction s with
  | nil => exact ⟨[], rfl⟩
  | cons ch s ih =>
    obtain ⟨xs, hx⟩ := ih
    by_cases h : ch = '.'
    · exact ⟨splitDots s, by simp [splitDots, h, List.takeWhile]⟩
    · have hb : (ch != '.') = true := by simpa using h
      exact ⟨xs, by simp [splitDots, h, hx, List.takeWhile_cons, hb]⟩

theorem splitDots_numeral (p t : List Char) (hp : ∀ ch ∈ p, ch ≠ '.') :
    ∃ xs, splitDots (p ++ t) = (p ++ t.takeWhile (fun c => c != '.')) :: xs := by
  induction p with
  | nil => simpa using splitDots_head t
  | cons ch p ih =>
    have h1 : ch ≠ '.' := hp ch (by simp)
    obtain ⟨xs, hx⟩ := ih (fun c hc => hp c (by simp [hc]))
    exact ⟨xs, by simp [splitDots, h1, hx]⟩

theorem splitDots_plain (p : List Char) (hp : ∀ ch ∈ p, ch ≠ '.') : splitDots p = [p] := by
  induction p with
  | nil => rfl
  | cons ch p ih =>
    have h1 : ch ≠ '.' := hp ch (by simp)
    simp [splitDots, h1, ih (fun c hc => hp c (by simp [hc]))]

theorem takeWhile_head_nondigit (us : List Char)
    (h : ∀ ch ∈ us.head?, digitValue ch = none) :
    ∀ ch ∈ (us.takeWhile (fun c => c != '.')).head?, digitValue ch = none := by
  cases us with
  | nil => simp
  | cons c tl =>
    have hc := h c (by simp)
    by_cases hd : c = '.'
    · simp [List.takeWhile_cons, hd]
    · have hb : (c != '.') = true := by simpa using hd
      simp [List.takeWhile_cons, hb, hc]

/-- For a version string that starts with the numerals of `a` and `b`
separated by a dot, the plugin computes `a > 1 or (a = 1 and b >= 9)`. -/
theorem hasOffhand_numerals (a b : Nat) (rest : List Char)
    (h : ∀ ch ∈ rest.head?, digitValue ch = none) :
    hasOffhand (String.mk ((Nat.repr a).data ++ '.' :: ((Nat.repr b).data ++ rest)))
      = decide (a > 1 ∨ (a = 1 ∧ b ≥ 9)) := by
  obtain ⟨pa, da⟩ := parseInt10_repr a [] (by simp)
  obtain ⟨xs, hx⟩ := splitDots_numeral (Nat.repr b).data rest (parseInt10_repr b [] (by simp)).2
  obtain ⟨pb, _⟩ := parseInt10_repr b (rest.takeWhile (fun c => c != '.'))
    (takeWhile_head_nondigit rest h)
  simp only [List.append_nil] at pa
  unfold hasOffhand
  simp only [splitDots_dot _ _ da, hx, versionComponent, List.get?, Option.getD, pa, pb]
  by_cases h1 : a > 1 <;> by_cases h2 : a = 1 <;> by_cases h3 : b ≥ 9 <;>
    simp [h1, h2, h3]

/-- For a version string that is the numeral of `a` alone, the minor version
counts as 0. -/
theorem hasOffhand_numeral (a : Nat) : hasOffhand (Nat.repr a) = decide (a > 1) := by
  obtain ⟨pa, da⟩ := parseInt10_repr a [] (by simp)
  simp only [List.append_nil] at pa
  have hu : parseInt10 "undefined".data = none := by decide
  unfold hasOffhand
  simp only [splitDots_plain _ da, versionComponent, List.get?, Option.getD, pa, hu]
  by_cases h1 : a > 1 <;> by_cases h2 : a = 1 <;> simp [h1, h2]

/-- C12, as the code has it: for every version string, the offhand support
the plugin computes is `major > 1 or (major = 1 and minor >= 9)`, major and
minor being the first two dot-separated components of the string parsed as
base-10 integers, an unparsable or missing component counting as 0; so for a
string that starts with the numerals of `a` and `b` separated by a dot it is
`a > 1 or (a = 1 and b >= 9)`, and for the numeral of `a` alone it is
`a > 1`.  For every version string for which the library has game data: when
the game data has no id for the totem or offhand support is false, the
plugin returns without an error and with the host as it found it, no
listener on `bot`, none on `bot._client`, no `bot.autoTotem`; past the gate
it registers its listeners and defines `bot.autoTotem`. -/
theorem C12_capability_gate :
    (∀ version : String, hasOffhand version = specOffhand version) ∧
    (∀ (a b : Nat) (rest : List Char), (∀ ch ∈ rest.head?, digitValue ch = none) →
        hasOffhand (String.mk ((Nat.repr a).data ++ '.' :: ((Nat.repr b).data ++ rest)))
          = decide (a > 1 ∨ (a = 1 ∧ b ≥ 9))) ∧
    (∀ a : Nat, hasOffhand (Nat.repr a) = decide (a > 1)) ∧
    (∀ (minecraftData : String → Option GameData) (version : String) (mcData : GameData)
        (hasClient : Bool) (health : Health) (inv : Option Inventory) (now : Int) (h : Host),
        minecraftData version = some mcData →
        mcData.totemId = none ∨ hasOffhand version = false →
        plugin minecraftData version hasClient health inv now h = Except.ok (h, none)) ∧
    (∀ (minecraftData : String → Option GameData) (version : String) (id : Nat)
        (hasClient : Bool) (health : Health) (inv : Option Inventory) (now : Int) (h : Host),
        minecraftData version = some ⟨some id⟩ → id ≠ 0 → hasOffhand version = true →
        plugin minecraftData version hasClient health inv now h =
          Except.ok
            ({ botListeners :=
                  h.botListeners ++ ["physicsTick", "health", "playerCollect", "physicsTick"]
               clientListeners :=
                  if hasClient then h.clientListeners ++ ["entity_status"]
                  else h.clientListeners
               autoTotem := true },
              some (init health inv now))) := by
  refine ⟨?_, hasOffhand_numerals, hasOffhand_numeral, ?_, ?_⟩
  · intro version
    simp only [hasOffhand, specOffhand, versionComponent_eq]
    by_cases h1 : specComponent version 0 > 1 <;>
    by_cases h2 : specComponent version 0 = 1 <;>
    by_cases h3 : specComponent version 1 ≥ 9 <;> simp [h1, h2, h3]
  · intro minecraftData version mcData hasClient health inv now h hd hg
    unfold plugin
    rw [hd]
    rcases hg with hg | hg
    · simp [hg]
    · simp [hg]
  · intro minecraftData version id hasClient health inv now h hd hid hv
    unfold plugin
    rw [hd]
    simp [hid, hv]

/-- C12 at concrete values: 1.16.5 has offhand support; the library knows
1.8.9 without a totem and the plugin leaves an empty host empty; so it does
under 1.8.9 with a library that lists a totem; under 1.16.5 it loads. -/
theorem C12_capability_gate_witness :
    hasOffhand "1.16.5" = true ∧
    plugin exampleData "1.8.9" true none none 0 ⟨[], [], false⟩
      = Except.ok (⟨[], [], false⟩, none) ∧
    plugin (fun _ => some ⟨some 7⟩) "1.8.9" true none none 0 ⟨[], [], false⟩
      = Except.ok (⟨[], [], false⟩, none) ∧
    plugin exampleData "1.16.5" true none none 0 ⟨[], [], false⟩
      = Except.ok
          (⟨["physicsTick", "health", "playerCollect", "physicsTick"], ["entity_status"], true⟩,
            some (init none none 0)) :=
  ⟨C12_capability_gate.2.1 1 16 ".5".data (by decide),
    C12_capability_gate.2.2.2.1 exampleData "1.8.9" ⟨none⟩ true none none 0 ⟨[], [], false⟩
      (by decide) (Or.inl rfl),
    C12_capability_gate.2.2.2.1 (fun _ => some ⟨some 7⟩) "1.8.9" ⟨some 7⟩ true none none 0
      ⟨[], [], false⟩ rfl (Or.inr (by decide)),
    C12_capability_gate.2.2.2.2 exampleData "1.16.5" 7 true none none 0 ⟨[], [], false⟩
      (by decide) (by decide) (by decide)⟩

/-- C12 as stated fails: the library has no game data for the version string
`foo`.  Offhand support is false for it, so the plugin should return
quietly; but it reads `itemsByName` of `null` at line 4 and throws a
`TypeError`. -/
theorem C12_counterexample :
    hasOffhand "foo" = false ∧ exampleData "foo" = none ∧
    plugin exampleData "foo" true none none 0 ⟨[], [], false⟩ = Except.error typeError :=
  ⟨by decide, by decide, rfl⟩

end AutoTotem
